import Mathlib

/-!
Shallow embedding of the simulation / state-machine core of
`flappy_bird.py` (a pygame arcade game), together with proofs about it.

Modelling conventions, chosen so that every definition mirrors its Python
source line by line:

* Every fractional constant in the program has at most one decimal digit
  (0.5, 0.8, 1.5, 4.5, 0.2), and the arithmetic applied to real-valued
  quantities (addition, subtraction, negation, doubling, min/max,
  comparisons, `int()` truncation, `// 2` floor division) stays inside the
  grid of tenths, where Python float arithmetic on these values is exact.
  A real-valued quantity `v` is therefore embedded exactly as the integer
  `10·v` of tenths (`Fx`).
* `pygame.Rect` stores integers; float arguments are converted with C
  truncation toward zero (Python `int()`); `colliderect` is the strict
  four-way overlap test of pygame's `rect.c`.
* Calls to `random.randint` / `random.random` / `random.choice` are
  modelled by threading an explicit `Oracle` of drawn values through each
  tick; the contract of `random.randint(a, b)` (result within `[a, b]`) is
  captured by `Oracle.ok`, which game-step reachability assumes.
* Sound playback, fonts, the background animation and the per-particle
  decay of the particle system are render/audio-only and do not feed back
  into game state; the particle system is embedded as the append-only log
  (`effects`) of the explosion groups that `Game.update` emits
  (`add_explosion` call sites, lines 1455, 1492, 1510), and the `scored`
  duck-typed attribute (`hasattr(pipe, 'scored')`, line 1463) is a `Bool`
  field defaulting to `false`.
-/

namespace FlappyBird

/-- Screen width constant (`SCREEN_WIDTH = 800`, line 13). -/
def SCREEN_WIDTH : ℤ := 800

/-- Screen height constant (`SCREEN_HEIGHT = 600`, line 14). -/
def SCREEN_HEIGHT : ℤ := 600

/-- Exact fixed-point embedding of the Python real-valued quantities of
this program: `tenths` holds ten times the represented value. -/
structure Fx where
  tenths : ℤ
deriving DecidableEq

/-- Embed an integer quantity. -/
def Fx.ofInt (n : ℤ) : Fx := ⟨n * 10⟩

/-- Addition of real-valued quantities. -/
def Fx.add (a b : Fx) : Fx := ⟨a.tenths + b.tenths⟩

/-- Subtraction of real-valued quantities. -/
def Fx.sub (a b : Fx) : Fx := ⟨a.tenths - b.tenths⟩

/-- Negation. -/
def Fx.neg (a : Fx) : Fx := ⟨-a.tenths⟩

/-- Multiplication by an integer (used for `-velocity * 2`). -/
def Fx.mulInt (a : Fx) (n : ℤ) : Fx := ⟨a.tenths * n⟩

/-- Python `int()` conversion: truncation toward zero (also how pygame
converts float rect coordinates). `Int.tdiv` truncates toward zero. -/
def Fx.trunc (a : Fx) : ℤ := Int.tdiv a.tenths 10

/-- Python floor division `v // n` of a (possibly fractional) value by an
integer: the mathematical floor of the quotient. `Int.fdiv` is floor
division. -/
def Fx.floorDivInt (a : Fx) (n : ℤ) : Fx := Fx.ofInt (Int.fdiv a.tenths (n * 10))

/-- Python `min` on two real-valued quantities. -/
def Fx.minF (a b : Fx) : Fx := if a.tenths ≤ b.tenths then a else b

/-- Python `max` on two real-valued quantities. -/
def Fx.maxF (a b : Fx) : Fx := if a.tenths ≤ b.tenths then b else a

/-- An integer axis-aligned rectangle, as stored by `pygame.Rect`. -/
structure PyRect where
  x : ℤ
  y : ℤ
  w : ℤ
  h : ℤ
deriving DecidableEq

/-- Build a `pygame.Rect` from real-valued position arguments: coordinates
are truncated toward zero. -/
def mkRect (x y : Fx) (w h : ℤ) : PyRect := ⟨x.trunc, y.trunc, w, h⟩

/-- pygame's `Rect.colliderect` overlap test (`_pg_do_rects_intersect` in
pygame `rect.c`): all four strict inequalities. -/
def PyRect.colliderect (a b : PyRect) : Bool :=
  decide (a.x < b.x + b.w) && decide (a.y < b.y + b.h) &&
  decide (a.x + a.w > b.x) && decide (a.y + a.h > b.y)

/-- The three difficulty levels, in the order of the keys of
`DIFFICULTY_SETTINGS` (lines 80-111): 简单 (easy), 中等 (medium), 难 (hard). -/
inductive Difficulty
  | easy
  | medium
  | hard
deriving DecidableEq

/-- One entry of the `DIFFICULTY_SETTINGS` table. -/
structure DiffSettings where
  pipe_speed : Fx
  pipe_gap : ℤ
  pipe_spawn_interval : ℤ
  gravity : Fx
  jump_strength : Fx
  has_moving_pipes : Bool
  has_powerups : Bool
  has_obstacles : Bool
deriving DecidableEq

/-- The `DIFFICULTY_SETTINGS` lookup table (lines 80-111); speeds and
gravities are the tenths-exact embeddings of 1.5 / 3 / 4.5 and
0.5 / 0.8 / 1.0. -/
def DIFFICULTY_SETTINGS : Difficulty → DiffSettings
  | .easy => ⟨⟨15⟩, 200, 150, ⟨5⟩, Fx.ofInt (-8), false, false, false⟩
  | .medium => ⟨Fx.ofInt 3, 200, 90, ⟨8⟩, Fx.ofInt (-12), true, true, true⟩
  | .hard => ⟨⟨45⟩, 130, 70, Fx.ofInt 1, Fx.ofInt (-14), true, true, true⟩

/-- The bird entity (`class Bird`, lines 468-621). `wing_speed` is the
constant 0.5; the cosmetic image fields are render-only and omitted. -/
structure Bird where
  x : Fx
  y : Fx
  width : ℤ := 30
  height : ℤ := 30
  velocity : Fx := ⟨0⟩
  gravity : Fx
  jump_strength : Fx
  rotation : Fx := ⟨0⟩
  max_rotation : ℤ := 25
  wing_animation : Fx := ⟨0⟩
deriving DecidableEq

/-- `Bird.__init__` (lines 469-488). -/
def Bird.init (x y : Fx) (difficulty : Difficulty) : Bird :=
  { x, y
    gravity := (DIFFICULTY_SETTINGS difficulty).gravity
    jump_strength := (DIFFICULTY_SETTINGS difficulty).jump_strength }

/-- `Bird.jump` (lines 490-492): velocity is overwritten with the
difficulty's jump strength. -/
def Bird.jump (b : Bird) : Bird := { b with velocity := b.jump_strength }

/-- `Bird.update` (lines 494-507): gravity, position, wing animation and
velocity-derived rotation clamped to ±`max_rotation`. -/
def Bird.update (b : Bird) : Bird :=
  let velocity := b.velocity.add b.gravity
  let y := b.y.add velocity
  let wing_animation := b.wing_animation.add ⟨5⟩
  let rotation :=
    if velocity.tenths < 0 then
      Fx.minF (Fx.ofInt b.max_rotation) (velocity.neg.mulInt 2)
    else
      Fx.maxF (Fx.ofInt (-b.max_rotation)) (velocity.neg.mulInt 2)
  { b with velocity, y, wing_animation, rotation }

/-- `Bird.get_rect` (lines 619-621). -/
def Bird.get_rect (b : Bird) : PyRect := mkRect b.x b.y b.width b.height

/-- Obstacle entity. The Python code uses a subclass `MovingPipe(Pipe)`
(lines 1010-1036); here the two-case hierarchy is the tagged field
`moving`, with the oscillation state fields meaningful only when
`moving = true` (they keep their constructor defaults otherwise). -/
structure Pipe where
  x : Fx
  width : ℤ := 60
  gap : ℤ
  speed : Fx
  top_height : ℤ
  bottom_y : ℤ
  scored : Bool := false
  moving : Bool := false
  move_speed : ℤ := 1
  move_direction : ℤ := 1
  move_timer : ℤ := 0
deriving DecidableEq

/-- `Pipe.__init__` (lines 624-635); `topRand` is the drawn value of
`random.randint(50, SCREEN_HEIGHT - gap - 50)`. -/
def Pipe.init (x : Fx) (difficulty : Difficulty) (topRand : ℤ) : Pipe :=
  { x
    gap := (DIFFICULTY_SETTINGS difficulty).pipe_gap
    speed := (DIFFICULTY_SETTINGS difficulty).pipe_speed
    top_height := topRand
    bottom_y := topRand + (DIFFICULTY_SETTINGS difficulty).pipe_gap }

/-- `Pipe.update` (lines 637-639). -/
def Pipe.update (p : Pipe) : Pipe := { p with x := p.x.sub p.speed }

/-- `Pipe.get_rects` (lines 679-684): top rectangle `(x, 0, width,
top_height)` and bottom rectangle `(x, bottom_y, width, SCREEN_HEIGHT -
bottom_y)`. -/
def Pipe.get_rects (p : Pipe) : PyRect × PyRect :=
  (⟨p.x.trunc, 0, p.width, p.top_height⟩,
   ⟨p.x.trunc, p.bottom_y, p.width, SCREEN_HEIGHT - p.bottom_y⟩)

/-- `Pipe.is_off_screen` (lines 686-688): `x + width < 0`. -/
def Pipe.is_off_screen (p : Pipe) : Bool :=
  decide ((p.x.add (Fx.ofInt p.width)).tenths < 0)

/-- `Pipe.is_passed` (lines 690-692): `bird_x > x + width`. -/
def Pipe.is_passed (p : Pipe) (bird_x : Fx) : Bool :=
  decide ((p.x.add (Fx.ofInt p.width)).tenths < bird_x.tenths)

/-- `MovingPipe.__init__` (lines 1011-1015). -/
def MovingPipe.init (x : Fx) (difficulty : Difficulty) (topRand : ℤ) : Pipe :=
  { Pipe.init x difficulty topRand with
    moving := true, move_speed := 1, move_direction := 1, move_timer := 0 }

/-- `MovingPipe.update` (lines 1017-1036): horizontal motion of the base
class, then the vertical oscillation.  Note that `bottom_y` is assigned
from `top_height + gap` (line 1028) before the clamp of lines 1031-1036,
which adjusts `top_height` and `move_direction` only. -/
def MovingPipe.update (p : Pipe) : Pipe :=
  let p1 := Pipe.update p
  let t := p1.move_timer + 1
  let dir := if t ≥ 30 then -p1.move_direction else p1.move_direction
  let t1 := if t ≥ 30 then 0 else t
  let top := p1.top_height + dir * p1.move_speed
  let bottom := top + p1.gap
  if top < 50 then
    { p1 with move_timer := t1, move_direction := 1, top_height := 50, bottom_y := bottom }
  else if top > SCREEN_HEIGHT - p1.gap - 50 then
    { p1 with move_timer := t1, move_direction := -1, top_height := SCREEN_HEIGHT - p1.gap - 50, bottom_y := bottom }
  else
    { p1 with move_timer := t1, move_direction := dir, top_height := top, bottom_y := bottom }

/-- Power-up kinds (`random.choice(['shield', 'slow_motion',
'double_score'])`, line 965). -/
inductive PType
  | shield
  | slow_motion
  | double_score
deriving DecidableEq

/-- The power-up entity (`class PowerUp`, lines 958-1008).
`glow_intensity` (a sine of `animation`) is render-only and omitted. -/
structure PowerUp where
  x : Fx
  y : Fx
  width : ℤ := 20
  height : ℤ := 20
  speed : Fx := Fx.ofInt 3
  type : PType
  collected : Bool := false
  animation : Fx := ⟨0⟩
deriving DecidableEq

/-- `PowerUp.__init__` (lines 959-968); `ty` is the drawn value of the
`random.choice` over the three kinds. -/
def PowerUp.init (x y : Fx) (ty : PType) : PowerUp := { x, y, type := ty }

/-- `PowerUp.update` (lines 970-974): leftward motion plus the animation
phase (`animation += 0.2`). -/
def PowerUp.update (p : PowerUp) : PowerUp :=
  { p with x := p.x.sub p.speed, animation := p.animation.add ⟨2⟩ }

/-- `PowerUp.get_rect` (lines 1001-1004): rectangle centered on `(x, y)`. -/
def PowerUp.get_rect (p : PowerUp) : PyRect :=
  mkRect (p.x.sub (Fx.ofInt (Int.fdiv p.width 2))) (p.y.sub (Fx.ofInt (Int.fdiv p.height 2)))
    p.width p.height

/-- `PowerUp.is_off_screen` (lines 1006-1008): `x + width < 0`. -/
def PowerUp.is_off_screen (p : PowerUp) : Bool :=
  decide ((p.x.add (Fx.ofInt p.width)).tenths < 0)

/-- Colors used by the particle effects the core emits (lines 69-77). -/
inductive Color
  | red
  | blue
  | yellow
deriving DecidableEq

/-- One emitted particle-system effect group.  `crash` is
`add_explosion(..., RED, 15)` (lines 1455, 1510); `collect` is
`add_explosion(powerup.x, powerup.y, <type color>, 8)` (line 1492).
Per-particle motion/decay is render-only and not part of the log. -/
inductive PEffect
  | crash (x y : Fx)
  | collect (x y : Fx) (c : Color)
deriving DecidableEq

/-- The crash explosion emitted at the bird's center (lines 1455-1459 and
1510-1514). -/
def crashExplosion (b : Bird) : PEffect :=
  PEffect.crash (b.x.add (Fx.ofInt (Int.fdiv b.width 2)))
    (b.y.add (Fx.ofInt (Int.fdiv b.height 2)))

/-- The color of the collect explosion: the Python `and`/`or` chain of
lines 1493-1494 evaluates to BLUE / YELLOW / RED by power-up type. -/
def collectColor : PType → Color
  | .shield => .blue
  | .slow_motion => .yellow
  | .double_score => .red

/-- The collect explosion emitted at the power-up's position (line 1492). -/
def collectExplosion (p : PowerUp) : PEffect :=
  PEffect.collect p.x p.y (collectColor p.type)

/-- The game mode strings of `self.state` (line 1046). -/
inductive Mode
  | MENU
  | PLAYING
  | GAME_OVER
  | SETTINGS
  | DIFFICULTY_SELECT
deriving DecidableEq

/-- The state owned by `class Game` that the simulation core reads or
writes (`Game.__init__`, lines 1038-1125).  Rendering caches, fonts and the
sound manager are external collaborators; of the particle system only the
emission log is kept (see the header note). -/
structure GameState where
  running : Bool := true
  state : Mode := .MENU
  difficulty : Difficulty := .medium
  paused : Bool := false
  bird : Option Bird := none
  pipes : List Pipe := []
  powerups : List PowerUp := []
  effects : List PEffect := []
  score : ℤ := 0
  high_score : ℤ := 0
  pipe_spawn_timer : ℤ := 0
  powerup_spawn_timer : ℤ := 0
  pipe_spawn_interval : ℤ := 90
  powerup_spawn_interval : ℤ := 300
  shield_active : Bool := false
  shield_timer : ℤ := 0
  slow_motion_active : Bool := false
  slow_motion_timer : ℤ := 0
  double_score_active : Bool := false
  double_score_timer : ℤ := 0
  menu_selection : ℤ := 0
  settings_selection : ℤ := 0
  difficulty_selection : ℤ := 0
  volume_dragging : Bool := false
  countdown_timer : ℤ := 0
  countdown_active : Bool := false
  countdown_text : String := ""
deriving DecidableEq

/-- The state right after `Game.__init__` (the defaults above;
`pipe_spawn_interval` is the medium interval 90, line 1105). -/
def initGame : GameState := {}

/-- `Game.start_game` (lines 1330-1365): enter PLAYING, fresh bird at
`(SCREEN_WIDTH // 2 - 15, SCREEN_HEIGHT // 2)`, cleared lists and timers,
difficulty's spawn interval, and the 240-tick countdown. -/
def GameState.start_game (g : GameState) : GameState :=
  { g with
    state := .PLAYING
    bird := some (Bird.init (Fx.ofInt (Int.fdiv SCREEN_WIDTH 2 - 15))
      (Fx.ofInt (Int.fdiv SCREEN_HEIGHT 2)) g.difficulty)
    pipes := []
    powerups := []
    score := 0
    pipe_spawn_timer := 0
    powerup_spawn_timer := 0
    shield_active := false
    shield_timer := 0
    slow_motion_active := false
    slow_motion_timer := 0
    double_score_active := false
    double_score_timer := 0
    effects := []
    pipe_spawn_interval := (DIFFICULTY_SETTINGS g.difficulty).pipe_spawn_interval
    countdown_active := true
    countdown_timer := 240
    countdown_text := "3" }

/-- `Game.collect_powerup` (lines 1516-1526): activate the effect of the
power-up's type with its full duration. -/
def GameState.collect_powerup (g : GameState) (p : PowerUp) : GameState :=
  match p.type with
  | .shield => { g with shield_active := true, shield_timer := 300 }
  | .slow_motion => { g with slow_motion_active := true, slow_motion_timer := 180 }
  | .double_score => { g with double_score_active := true, double_score_timer := 300 }

/-- The random values one call of `Game.update` may draw:
`pipeMovingRoll` is the outcome of `random.random() < 0.4` (line 1421),
`pipeTop` of `random.randint(50, SCREEN_HEIGHT - gap - 50)` (line 634),
`powerupY` of `random.randint(100, SCREEN_HEIGHT - 100)` (line 1432) and
`powerupType` of the `random.choice` of line 965. -/
structure Oracle where
  pipeMovingRoll : Bool := false
  pipeTop : ℤ := 200
  powerupY : ℤ := 300
  powerupType : PType := .shield
deriving DecidableEq

/-- The contract of the `random.randint` calls: drawn values lie inside
the requested closed intervals (`gap` is the pipe gap of the difficulty in
force when the tick runs). -/
def Oracle.ok (o : Oracle) (gap : ℤ) : Prop :=
  50 ≤ o.pipeTop ∧ o.pipeTop ≤ SCREEN_HEIGHT - gap - 50 ∧
    100 ≤ o.powerupY ∧ o.powerupY ≤ SCREEN_HEIGHT - 100

/-- The effect-timer phase of `Game.update` (lines 1399-1413): each active
effect's timer is decremented and the effect deactivates when its timer
reaches zero or below. -/
def tickEffectTimers (g : GameState) : GameState :=
  let g1 := if g.shield_active then
      { g with
        shield_timer := g.shield_timer - 1
        shield_active := decide (0 < g.shield_timer - 1) }
    else g
  let g2 := if g1.slow_motion_active then
      { g1 with
        slow_motion_timer := g1.slow_motion_timer - 1
        slow_motion_active := decide (0 < g1.slow_motion_timer - 1) }
    else g1
  if g2.double_score_active then
    { g2 with
      double_score_timer := g2.double_score_timer - 1
      double_score_active := decide (0 < g2.double_score_timer - 1) }
  else g2

/-- The spawn phase of `Game.update` (lines 1415-1434): the pipe spawn
counter always increments and fires at the interval (appending a moving
pipe when the difficulty has them and the 40% roll hit); the power-up
counter runs only when the difficulty has power-ups. -/
def spawnPhase (g : GameState) (o : Oracle) : GameState :=
  let t := g.pipe_spawn_timer + 1
  let g1 :=
    if t ≥ g.pipe_spawn_interval then
      let s := DIFFICULTY_SETTINGS g.difficulty
      let newPipe :=
        if s.has_moving_pipes && o.pipeMovingRoll then
          MovingPipe.init (Fx.ofInt SCREEN_WIDTH) g.difficulty o.pipeTop
        else
          Pipe.init (Fx.ofInt SCREEN_WIDTH) g.difficulty o.pipeTop
      { g with pipes := g.pipes ++ [newPipe], pipe_spawn_timer := 0 }
    else
      { g with pipe_spawn_timer := t }
  if (DIFFICULTY_SETTINGS g1.difficulty).has_powerups then
    let tp : ℤ := g1.powerup_spawn_timer + 1
    if tp ≥ g1.powerup_spawn_interval then
      { g1 with
        powerups := g1.powerups ++ [PowerUp.init (Fx.ofInt SCREEN_WIDTH) (Fx.ofInt o.powerupY) o.powerupType]
        powerup_spawn_timer := 0 }
    else
      { g1 with powerup_spawn_timer := tp }
  else g1

/-- Motion of one pipe inside the loop of lines 1437-1442: the full
`update` (virtual dispatch on the pipe kind) when slow motion is off,
otherwise `pipe.x -= pipe.speed // 2`. -/
def movePipe (slow : Bool) (p : Pipe) : Pipe :=
  if slow then { p with x := p.x.sub (p.speed.floorDivInt 2) }
  else if p.moving then MovingPipe.update p
  else Pipe.update p

/-- The scoring step of lines 1462-1466 applied to one (already moved)
pipe: mark `scored` when the bird has fully passed it. -/
def scoreStep (b : Bird) (p : Pipe) : Pipe :=
  if p.is_passed b.x && !p.scored then { p with scored := true } else p

/-- Motion plus scoring flag for one pipe in one tick. -/
def tickPipe (b : Bird) (slow : Bool) (p : Pipe) : Pipe := scoreStep b (movePipe slow p)

/-- Result of the obstacle loop of `Game.update` (lines 1437-1475). -/
structure PipeLoopRes where
  pipes : List Pipe
  score : ℤ
  high_score : ℤ
  gameOver : Bool
  fx : List PEffect
deriving DecidableEq

/-- The obstacle loop of `Game.update` (lines 1437-1475): per pipe, apply
motion, test the bird rectangle against both pipe rectangles (on fatal
overlap: game over, crash effect, `break` — the rest of the list is left
untouched), otherwise score a fully passed unscored pipe (raising the high
score when exceeded) and drop the pipe once off-screen. -/
def pipeLoop (b : Bird) (slow shield dbl : Bool) (score hs : ℤ) : List Pipe → PipeLoopRes
  | [] => ⟨[], score, hs, false, []⟩
  | p :: rest =>
    let p1 := movePipe slow p
    let bird_rect := b.get_rect
    let rects := p1.get_rects
    if (bird_rect.colliderect rects.1 || bird_rect.colliderect rects.2) && !shield then
      ⟨p1 :: rest, score, hs, true, [crashExplosion b]⟩
    else
      let trans := p1.is_passed b.x && !p1.scored
      let p2 := if trans then { p1 with scored := true } else p1
      let score1 := if trans then score + (if dbl then 2 else 1) else score
      let hs1 := if trans then (if score1 > hs then score1 else hs) else hs
      let r := pipeLoop b slow shield dbl score1 hs1 rest
      { r with pipes := if p2.is_off_screen then r.pipes else p2 :: r.pipes }

/-- Motion of one power-up inside the loop of lines 1478-1483. -/
def movePowerUp (slow : Bool) (p : PowerUp) : PowerUp :=
  if slow then { p with x := p.x.sub (p.speed.floorDivInt 2) }
  else PowerUp.update p

/-- The power-up loop of `Game.update` (lines 1477-1500): per power-up,
apply motion (halved while `slow_motion_active`, which a collection this
very loop can switch on for the later elements), collect on overlap
(activating the effect, emitting the collect explosion and removing the
power-up), and drop off-screen power-ups.  The accumulated kept list is
returned in the `powerups` field of the result.  (When a collected
power-up were also off-screen, the second `list.remove` of line 1500 would
raise `ValueError`; that the two conditions exclude each other is proved
below.) -/
def powerupLoop (b : Bird) (g : GameState) : List PowerUp → GameState
  | [] => { g with powerups := [] }
  | p :: rest =>
    let p1 := movePowerUp g.slow_motion_active p
    let bird_rect := b.get_rect
    if bird_rect.colliderect p1.get_rect && !p1.collected then
      let p2 := { p1 with collected := true }
      let g1 := g.collect_powerup p2
      let g2 := { g1 with effects := g1.effects ++ [collectExplosion p2] }
      powerupLoop b g2 rest
    else if p1.is_off_screen then
      powerupLoop b g rest
    else
      let r := powerupLoop b g rest
      { r with powerups := p1 :: r.powerups }

/-- The ground/ceiling check of `Game.update` (lines 1502-1514), applied
to the bird state of this tick. -/
def groundCheck (g : GameState) : GameState :=
  match g.bird with
  | none => g
  | some b =>
    if decide ((b.y.add (Fx.ofInt b.height)).tenths ≥ SCREEN_HEIGHT * 10) ||
        decide (b.y.tenths ≤ 0) then
      if !g.shield_active then
        { g with state := .GAME_OVER, effects := g.effects ++ [crashExplosion b] }
      else g
    else g

/-- The countdown branch of `Game.update` (lines 1375-1393): decrement the
timer, update the on-screen text at the 240/180/120/60 marks, deactivate
at zero, and skip all gameplay for this tick. -/
def countdownTick (g : GameState) : GameState :=
  let t := g.countdown_timer - 1
  if t ≤ 0 then { g with countdown_timer := t, countdown_active := false }
  else if t = 60 then { g with countdown_timer := t, countdown_text := "游戏开始" }
  else if t = 120 then { g with countdown_timer := t, countdown_text := "1" }
  else if t = 180 then { g with countdown_timer := t, countdown_text := "2" }
  else if t = 240 then { g with countdown_timer := t, countdown_text := "3" }
  else { g with countdown_timer := t }

/-- `Game.update` (lines 1371-1514): one simulation tick.  Runs only while
PLAYING with a live bird and not paused; during the countdown only the
countdown advances; otherwise bird physics, effect timers, spawning, the
obstacle loop, the power-up loop and the ground/ceiling check run in
source order.  (`background.update()` and the per-particle
`particle_system.update()` of lines 1396-1397 are render-only.) -/
def GameState.update (g : GameState) (o : Oracle) : GameState :=
  match g.state, g.bird, g.paused with
  | .PLAYING, some b0, false =>
    if g.countdown_active then countdownTick g
    else
      let b := b0.update
      let g1 := { g with bird := some b }
      let g2 := tickEffectTimers g1
      let g3 := spawnPhase g2 o
      let r := pipeLoop b g3.slow_motion_active g3.shield_active g3.double_score_active
        g3.score g3.high_score g3.pipes
      let g4 := { g3 with
        pipes := r.pipes
        score := r.score
        high_score := r.high_score
        state := if r.gameOver then .GAME_OVER else g3.state
        effects := g3.effects ++ r.fx }
      let g5 := powerupLoop b g4 g4.powerups
      groundCheck g5
  | _, _, _ => g

/-- One pending input event, as dispatched by `Game.handle_events`
(lines 1133-1328).  Mouse events carry the cursor position. -/
inductive Event
  | quit
  | keyEscape
  | keySpace
  | keyReturn
  | keyUp
  | keyDown
  | keyLeft
  | keyRight
  | mouseDown (mx my : ℤ)
  | mouseUp
  | mouseMove (mx my : ℤ)
deriving DecidableEq

/-- The difficulty at an index of `list(DIFFICULTY_SETTINGS.keys())`
(lines 1176-1177); the indices used are always results of `% 3`. -/
def difficultyAt (i : ℤ) : Difficulty :=
  if i = 0 then .easy else if i = 1 then .medium else .hard

/-- The row hit test used by the menu/settings/difficulty mouse handlers:
`x0 ≤ mx ≤ x1` and `y0 ≤ my ≤ y1`. -/
def rowHit (mx my x0 x1 y0 y1 : ℤ) : Bool :=
  decide (x0 ≤ mx) && decide (mx ≤ x1) && decide (y0 ≤ my) && decide (my ≤ y1)

/-- The `MOUSEBUTTONDOWN` handler (lines 1212-1284).  Volume values live
in the external sound manager; of the slider interaction only the
`volume_dragging` flag (which gates later mouse-motion handling) is state
of the core. -/
def GameState.mouse_down (g : GameState) (mx my : ℤ) : GameState :=
  match g.state with
  | .MENU =>
    if rowHit mx my (Int.fdiv SCREEN_WIDTH 2 - 200) (Int.fdiv SCREEN_WIDTH 2 + 200) 190 240 then
      GameState.start_game { g with menu_selection := 0 }
    else if rowHit mx my (Int.fdiv SCREEN_WIDTH 2 - 200) (Int.fdiv SCREEN_WIDTH 2 + 200) 270 320 then
      { g with menu_selection := 1, state := .SETTINGS }
    else if rowHit mx my (Int.fdiv SCREEN_WIDTH 2 - 200) (Int.fdiv SCREEN_WIDTH 2 + 200) 350 400 then
      { g with menu_selection := 2, running := false }
    else g
  | .PLAYING =>
    if !g.paused then { g with bird := g.bird.map Bird.jump } else g
  | .GAME_OVER => g.start_game
  | .SETTINGS =>
    if rowHit mx my 20 100 20 55 then { g with state := .MENU }
    else
      let g1 :=
        if rowHit mx my (Int.fdiv SCREEN_WIDTH 2 - 200) (Int.fdiv SCREEN_WIDTH 2 + 200) 210 260 then
          { g with settings_selection := 0, state := .DIFFICULTY_SELECT }
        else if rowHit mx my (Int.fdiv SCREEN_WIDTH 2 - 200) (Int.fdiv SCREEN_WIDTH 2 + 200) 290 340 then
          { g with settings_selection := 1 }
        else if rowHit mx my (Int.fdiv SCREEN_WIDTH 2 - 200) (Int.fdiv SCREEN_WIDTH 2 + 200) 370 420 then
          { g with settings_selection := 2, state := .MENU }
        else g
      if rowHit mx my (Int.fdiv SCREEN_WIDTH 2 + 80 - 10) (Int.fdiv SCREEN_WIDTH 2 + 80 + 200 + 10)
          (220 + 80 - 10 - 10) (220 + 80 - 10 + 20 + 10) then
        { g1 with volume_dragging := true }
      else g1
  | .DIFFICULTY_SELECT =>
    if rowHit mx my 20 100 20 55 then { g with state := .SETTINGS }
    else if rowHit mx my (Int.fdiv SCREEN_WIDTH 2 - 250) (Int.fdiv SCREEN_WIDTH 2 + 250) 205 275 then
      GameState.start_game { g with difficulty_selection := 0, difficulty := .easy }
    else if rowHit mx my (Int.fdiv SCREEN_WIDTH 2 - 250) (Int.fdiv SCREEN_WIDTH 2 + 250) 305 375 then
      GameState.start_game { g with difficulty_selection := 1, difficulty := .medium }
    else if rowHit mx my (Int.fdiv SCREEN_WIDTH 2 - 250) (Int.fdiv SCREEN_WIDTH 2 + 250) 405 475 then
      GameState.start_game { g with difficulty_selection := 2, difficulty := .hard }
    else g

/-- The `MOUSEMOTION` handler (lines 1288-1328): while dragging in
SETTINGS only the external volume changes; otherwise hovering moves the
selection of the row under the cursor. -/
def GameState.mouse_move (g : GameState) (mx my : ℤ) : GameState :=
  if g.volume_dragging && decide (g.state = Mode.SETTINGS) then g
  else
    match g.state with
    | .MENU =>
      if rowHit mx my (Int.fdiv SCREEN_WIDTH 2 - 200) (Int.fdiv SCREEN_WIDTH 2 + 200) 210 260 then
        { g with menu_selection := 0 }
      else if rowHit mx my (Int.fdiv SCREEN_WIDTH 2 - 200) (Int.fdiv SCREEN_WIDTH 2 + 200) 290 340 then
        { g with menu_selection := 1 }
      else if rowHit mx my (Int.fdiv SCREEN_WIDTH 2 - 200) (Int.fdiv SCREEN_WIDTH 2 + 200) 370 420 then
        { g with menu_selection := 2 }
      else g
    | .SETTINGS =>
      if rowHit mx my (Int.fdiv SCREEN_WIDTH 2 - 200) (Int.fdiv SCREEN_WIDTH 2 + 200) 210 260 then
        { g with settings_selection := 0 }
      else if rowHit mx my (Int.fdiv SCREEN_WIDTH 2 - 200) (Int.fdiv SCREEN_WIDTH 2 + 200) 290 340 then
        { g with settings_selection := 1 }
      else if rowHit mx my (Int.fdiv SCREEN_WIDTH 2 - 200) (Int.fdiv SCREEN_WIDTH 2 + 200) 370 420 then
        { g with settings_selection := 2 }
      else g
    | .DIFFICULTY_SELECT =>
      if rowHit mx my (Int.fdiv SCREEN_WIDTH 2 - 250) (Int.fdiv SCREEN_WIDTH 2 + 250) 205 275 then
        { g with difficulty_selection := 0 }
      else if rowHit mx my (Int.fdiv SCREEN_WIDTH 2 - 250) (Int.fdiv SCREEN_WIDTH 2 + 250) 305 375 then
        { g with difficulty_selection := 1 }
      else if rowHit mx my (Int.fdiv SCREEN_WIDTH 2 - 250) (Int.fdiv SCREEN_WIDTH 2 + 250) 405 475 then
        { g with difficulty_selection := 2 }
      else g
    | _ => g

/-- Dispatch of one pending event, mirroring `Game.handle_events` (lines
1133-1328) event by event; the key handlers follow lines 1138-1211 (the
volume keys Left/Right only touch the external sound manager). -/
def GameState.handle_event (g : GameState) : Event → GameState
  | .quit => { g with running := false }
  | .keyEscape =>
    match g.state with
    | .PLAYING => { g with paused := !g.paused }
    | .SETTINGS => { g with state := .MENU }
    | .DIFFICULTY_SELECT => { g with state := .SETTINGS }
    | .GAME_OVER => { g with state := .MENU }
    | .MENU => { g with running := false }
  | .keySpace =>
    match g.state with
    | .MENU => g.start_game
    | .PLAYING => if !g.paused then { g with bird := g.bird.map Bird.jump } else g
    | .GAME_OVER => g.start_game
    | _ => g
  | .keyReturn =>
    match g.state with
    | .MENU =>
      if g.menu_selection = 0 then g.start_game
      else if g.menu_selection = 1 then { g with state := .SETTINGS }
      else if g.menu_selection = 2 then { g with running := false }
      else g
    | .SETTINGS =>
      if g.settings_selection = 0 then { g with state := .DIFFICULTY_SELECT }
      else if g.settings_selection = 2 then { g with state := .MENU }
      else g
    | .DIFFICULTY_SELECT =>
      GameState.start_game { g with difficulty := difficultyAt g.difficulty_selection }
    | _ => g
  | .keyUp =>
    match g.state with
    | .MENU => { g with menu_selection := (g.menu_selection - 1) % 3 }
    | .SETTINGS => { g with settings_selection := (g.settings_selection - 1) % 3 }
    | .DIFFICULTY_SELECT => { g with difficulty_selection := (g.difficulty_selection - 1) % 3 }
    | _ => g
  | .keyDown =>
    match g.state with
    | .MENU => { g with menu_selection := (g.menu_selection + 1) % 3 }
    | .SETTINGS => { g with settings_selection := (g.settings_selection + 1) % 3 }
    | .DIFFICULTY_SELECT => { g with difficulty_selection := (g.difficulty_selection + 1) % 3 }
    | _ => g
  | .keyLeft => g
  | .keyRight => g
  | .mouseDown mx my => g.mouse_down mx my
  | .mouseUp => { g with volume_dragging := false }
  | .mouseMove mx my => g.mouse_move mx my

/-- One operation of the frame loop that can change core state: handling
one pending input event, or one `Game.update` tick with its drawn random
values. -/
inductive Op
  | event (e : Event)
  | tick (o : Oracle)
deriving DecidableEq

/-- Apply one operation. -/
def applyOp (g : GameState) : Op → GameState
  | .event e => g.handle_event e
  | .tick o => g.update o

/-- Run a list of operations in order. -/
def runOps (g : GameState) : List Op → GameState
  | [] => g
  | op :: l => runOps (applyOp g op) l

/-- One small step of the whole game: an arbitrary input event, or a
simulation tick whose drawn random values respect the `random.randint`
contracts for the difficulty in force. -/
inductive Step : GameState → GameState → Prop
  | event (g : GameState) (e : Event) : Step g (g.handle_event e)
  | tick (g : GameState) (o : Oracle)
      (ho : o.ok (DIFFICULTY_SETTINGS g.difficulty).pipe_gap) : Step g (g.update o)

/-- Reachability from the post-`__init__` state. -/
def Reachable (g : GameState) : Prop := Relation.ReflTransGen Step initGame g


/-- The fixed draw used by the concrete traces below: static pipe rolls,
pipe top 250, power-up y 350, shield power-ups.  These values satisfy the
`random.randint` ranges of every difficulty. -/
def traceOracle : Oracle := ⟨false, 250, 350, PType.shield⟩

/-- A run of `n` simulation ticks drawing `traceOracle`. -/
def tickN (n : ℕ) : List Op := List.replicate n (Op.tick traceOracle)

/-- A space-key press (starts the round from the menu; a jump while
playing). -/
def jumpOp : Op := Op.event Event.keySpace

/-- Operations whose random draws satisfy the `random.randint` contract
for every difficulty (pipe top within `[50, 350]` fits all three
difficulties' ranges). -/
def opOkAll (op : Op) : Bool :=
  match op with
  | .event _ => true
  | .tick o =>
    decide (50 ≤ o.pipeTop) && decide (o.pipeTop ≤ 350) &&
    decide (100 ≤ o.powerupY) && decide (o.powerupY ≤ 500)

theorem opOkAll_ok {o : Oracle} (h : opOkAll (Op.tick o) = true) (d : Difficulty) :
    o.ok (DIFFICULTY_SETTINGS d).pipe_gap := by
  simp only [opOkAll, Bool.and_eq_true, decide_eq_true_eq] at h
  cases d <;> simp only [Oracle.ok, DIFFICULTY_SETTINGS, SCREEN_HEIGHT] <;> omega

theorem runOps_append (g : GameState) (l1 l2 : List Op) :
    runOps g (l1 ++ l2) = runOps (runOps g l1) l2 := by
  induction l1 generalizing g with
  | nil => rfl
  | cons op l ih => exact ih (applyOp g op)

theorem reachable_runOps {g : GameState} (hg : Reachable g) (l : List Op)
    (h : l.all opOkAll = true) : Reachable (runOps g l) := by
  induction l generalizing g with
  | nil => exact hg
  | cons op l ih =>
    simp only [List.all_cons, Bool.and_eq_true] at h
    refine ih ?_ h.2
    cases hop : op with
    | event e => exact Relation.ReflTransGen.tail hg (Step.event g e)
    | tick o =>
      subst hop
      exact Relation.ReflTransGen.tail hg (Step.tick g o (opOkAll_ok h.1 g.difficulty))

/-- Ticks 1-330 of the C1 trace: the starting space press, the 240
countdown ticks and 90 ticks of play with jumps before ticks 254, 283 and
312 (tick indices counted from the space press). -/
def c1cA : List Op :=
  jumpOp :: (tickN 254 ++ jumpOp :: tickN 29 ++ jumpOp :: tickN 29 ++ jumpOp :: tickN 18)

/-- Ticks 331-660 of the C1 trace (jumps continue every 29 ticks). -/
def c1cB : List Op :=
  tickN 11 ++ (List.replicate 11 (jumpOp :: tickN 29)).flatten

/-- Ticks 661-964 of the C1 trace: one final jump, then free fall; the
shield power-up is collected during this stretch and the bird sinks below
the screen under its protection. -/
def c1cC : List Op := jumpOp :: tickN 304

/-- The C1 trace state after 330 ticks, computed by the chunk lemma below. -/
def c1s330 : GameState :=
{ running := true
  state := Mode.PLAYING
  difficulty := Difficulty.medium
  paused := false
  bird := some { x := ⟨3850⟩, y := ⟨3048⟩, width := 30, height := 30, velocity := ⟨24⟩, gravity := ⟨8⟩, jump_strength := ⟨-120⟩, rotation := ⟨-48⟩, max_rotation := 25, wing_animation := ⟨450⟩ }
  pipes := [{ x := ⟨7970⟩, width := 60, gap := 200, speed := ⟨30⟩, top_height := 250, bottom_y := 450, scored := false, moving := false, move_speed := 1, move_direction := 1, move_timer := 0 }]
  powerups := []
  effects := []
  score := 0
  high_score := 0
  pipe_spawn_timer := 0
  powerup_spawn_timer := 90
  pipe_spawn_interval := 90
  powerup_spawn_interval := 300
  shield_active := false
  shield_timer := 0
  slow_motion_active := false
  slow_motion_timer := 0
  double_score_active := false
  double_score_timer := 0
  menu_selection := 0
  settings_selection := 0
  difficulty_selection := 0
  volume_dragging := false
  countdown_timer := 0
  countdown_active := false
  countdown_text := "游戏开始" }

/-- The C1 trace state after 660 ticks. -/
def c1s660 : GameState :=
{ running := true
  state := Mode.PLAYING
  difficulty := Difficulty.medium
  paused := false
  bird := some { x := ⟨3850⟩, y := ⟨3840⟩, width := 30, height := 30, velocity := ⟨112⟩, gravity := ⟨8⟩, jump_strength := ⟨-120⟩, rotation := ⟨-224⟩, max_rotation := 25, wing_animation := ⟨2100⟩ }
  pipes := [{ x := ⟨770⟩, width := 60, gap := 200, speed := ⟨30⟩, top_height := 250, bottom_y := 450, scored := true, moving := false, move_speed := 1, move_direction := 1, move_timer := 0 },
    { x := ⟨3470⟩, width := 60, gap := 200, speed := ⟨30⟩, top_height := 250, bottom_y := 450, scored := false, moving := false, move_speed := 1, move_direction := 1, move_timer := 0 },
    { x := ⟨6170⟩, width := 60, gap := 200, speed := ⟨30⟩, top_height := 250, bottom_y := 450, scored := false, moving := false, move_speed := 1, move_direction := 1, move_timer := 0 }]
  powerups := [{ x := ⟨4370⟩, y := ⟨3500⟩, width := 20, height := 20, speed := ⟨30⟩, type := PType.shield, collected := false, animation := ⟨242⟩ }]
  effects := []
  score := 2
  high_score := 2
  pipe_spawn_timer := 60
  powerup_spawn_timer := 120
  pipe_spawn_interval := 90
  powerup_spawn_interval := 300
  shield_active := false
  shield_timer := 0
  slow_motion_active := false
  slow_motion_timer := 0
  double_score_active := false
  double_score_timer := 0
  menu_selection := 0
  settings_selection := 0
  difficulty_selection := 0
  volume_dragging := false
  countdown_timer := 0
  countdown_active := false
  countdown_text := "游戏开始" }

set_option maxRecDepth 100000 in
theorem c1_runA : runOps initGame c1cA = c1s330 := by decide

set_option maxRecDepth 100000 in
theorem c1_runB : runOps c1s330 c1cB = c1s660 := by decide

/-- The reachable state one tick before the C1 counterexample tick. -/
def c1Pre : GameState := runOps c1s660 c1cC


/-- The oscillation direction a `MovingPipe.update` call uses after the
30-tick flip of lines 1022-1025. -/
def movedDir (p : Pipe) : ℤ :=
  if p.move_timer + 1 ≥ 30 then -p.move_direction else p.move_direction

/-- The vertical position a `MovingPipe.update` call computes before the
clamp of lines 1031-1036. -/
def movedTop (p : Pipe) : ℤ := p.top_height + movedDir p * p.move_speed

/-- A moving pipe as constructed with the smallest admissible
`random.randint(50, SCREEN_HEIGHT - gap - 50)` draw on medium difficulty;
after 59 updates its oscillation is clamped at the lower bound. -/
def c5mp : Pipe := MovingPipe.init (Fx.ofInt SCREEN_WIDTH) Difficulty.medium 50

set_option maxRecDepth 10000 in
/-- C5, counterexample: a medium-difficulty moving pipe constructed with
the in-range draw 50 violates `bottom_y = top_height + gap` on the 59th
tick after construction, the first tick on which the clamp fires:
`bottom_y` was computed from the pre-clamp `top_height` 49 (line 1028)
and the clamp then rewrote `top_height` to 50 without re-deriving
`bottom_y` (lines 1031-1033). -/
theorem c5_counterexample :
    (50 ≤ (50 : ℤ) ∧ (50 : ℤ) ≤ SCREEN_HEIGHT - (DIFFICULTY_SETTINGS Difficulty.medium).pipe_gap - 50) ∧
    (MovingPipe.update^[59] c5mp).top_height = 50 ∧
    (MovingPipe.update^[59] c5mp).gap = 200 ∧
    (MovingPipe.update^[59] c5mp).bottom_y = 249 ∧
    ¬ (MovingPipe.update^[59] c5mp).bottom_y =
        (MovingPipe.update^[59] c5mp).top_height + (MovingPipe.update^[59] c5mp).gap := by
  decide

/-- C5, amended: construction establishes `bottom_y = top_height + gap`
with `top_height` equal to the in-range draw; a static pipe's update never
touches the vertical fields; a `MovingPipe.update` keeps `top_height`
inside `[50, SCREEN_HEIGHT - gap - 50]` and, exactly when the clamp fires,
forces the direction away from the hit boundary (`+1` at the lower bound,
`-1` at the upper bound) — but it assigns `bottom_y` from the pre-clamp
`top_height`, so on a clamp tick `bottom_y = movedTop + gap` differs from
`top_height + gap` until the next update; on clamp-free ticks
`bottom_y = top_height + gap` holds. -/
theorem c5_pipe_geometry :
    (∀ (x : Fx) (d : Difficulty) (top : ℤ),
      (Pipe.init x d top).top_height = top ∧
      (Pipe.init x d top).bottom_y = (Pipe.init x d top).top_height + (Pipe.init x d top).gap ∧
      (MovingPipe.init x d top).top_height = top ∧
      (MovingPipe.init x d top).bottom_y =
        (MovingPipe.init x d top).top_height + (MovingPipe.init x d top).gap) ∧
    (∀ p : Pipe, (Pipe.update p).top_height = p.top_height ∧
      (Pipe.update p).bottom_y = p.bottom_y ∧ (Pipe.update p).gap = p.gap) ∧
    (∀ p : Pipe, 50 ≤ SCREEN_HEIGHT - p.gap - 50 →
      (50 ≤ (MovingPipe.update p).top_height ∧
        (MovingPipe.update p).top_height ≤ SCREEN_HEIGHT - p.gap - 50) ∧
      (MovingPipe.update p).gap = p.gap ∧
      (MovingPipe.update p).bottom_y = movedTop p + p.gap ∧
      (movedTop p < 50 →
        (MovingPipe.update p).top_height = 50 ∧ (MovingPipe.update p).move_direction = 1) ∧
      (movedTop p > SCREEN_HEIGHT - p.gap - 50 →
        (MovingPipe.update p).top_height = SCREEN_HEIGHT - p.gap - 50 ∧
        (MovingPipe.update p).move_direction = -1) ∧
      (50 ≤ movedTop p → movedTop p ≤ SCREEN_HEIGHT - p.gap - 50 →
        (MovingPipe.update p).top_height = movedTop p ∧
        (MovingPipe.update p).move_direction = movedDir p ∧
        (MovingPipe.update p).bottom_y = (MovingPipe.update p).top_height + p.gap)) := by
  refine ⟨?_, ?_, ?_⟩
  · intro x d top
    cases d <;> simp [Pipe.init, MovingPipe.init]
  · intro p
    simp [Pipe.update]
  · intro p hgap
    simp only [MovingPipe.update, movedTop, movedDir, Pipe.update]
    split_ifs <;> simp_all <;> omega

/-- C5 witness: the amended theorem applied to `c5mp` itself (whose gap
200 satisfies the hypothesis), on a clamp-free first tick. -/
theorem c5_geometry_witness :
    (50 ≤ SCREEN_HEIGHT - c5mp.gap - 50) ∧
    (50 ≤ (MovingPipe.update c5mp).top_height ∧
      (MovingPipe.update c5mp).top_height ≤ SCREEN_HEIGHT - c5mp.gap - 50) ∧
    (MovingPipe.update c5mp).bottom_y = (MovingPipe.update c5mp).top_height + c5mp.gap :=
  ⟨by decide, (c5_pipe_geometry.2.2 c5mp (by decide)).1,
    ((c5_pipe_geometry.2.2 c5mp (by decide)).2.2.2.2.2 (by decide) (by decide)).2.2⟩



theorem tdiv_ten_nonpos {a : ℤ} (h : a ≤ 0) : Int.tdiv a 10 ≤ 0 := by
  match a with
  | Int.ofNat m =>
    have hm : m = 0 := by
      simp only [Int.ofNat_eq_natCast] at h
      omega
    subst hm; decide
  | Int.negSucc m =>
    show -(Int.ofNat (Nat.succ m / 10)) ≤ 0
    simp only [Int.ofNat_eq_natCast, neg_nonpos]
    exact Int.natCast_nonneg _

theorem tickEffectTimers_bird (g : GameState) : (tickEffectTimers g).bird = g.bird := by
  simp only [tickEffectTimers]
  split_ifs <;> rfl

theorem spawnPhase_bird (g : GameState) (o : Oracle) : (spawnPhase g o).bird = g.bird := by
  simp only [spawnPhase]
  split_ifs <;> rfl

theorem powerupLoop_bird (b : Bird) (l : List PowerUp) (g : GameState) :
    (powerupLoop b g l).bird = g.bird := by
  induction l generalizing g with
  | nil => rfl
  | cons p rest ih =>
    simp only [powerupLoop]
    split
    · rw [ih]
      cases hp : (movePowerUp g.slow_motion_active p).type <;>
        simp [GameState.collect_powerup, hp]
    · split
      · exact ih g
      · rw [ih]

theorem groundCheck_bird (g : GameState) : (groundCheck g).bird = g.bird := by
  unfold groundCheck
  split
  · rfl
  · split_ifs <;> rfl

/-- Every bird `handle_events` can leave in the state: the previous one,
the previous one after a jump, or the fresh bird of `start_game`. -/
theorem handle_event_bird (g : GameState) (e : Event) :
    (g.handle_event e).bird = g.bird ∨
    (g.handle_event e).bird = g.bird.map Bird.jump ∨
    ∃ d, (g.handle_event e).bird =
      some (Bird.init (Fx.ofInt (Int.fdiv SCREEN_WIDTH 2 - 15))
        (Fx.ofInt (Int.fdiv SCREEN_HEIGHT 2)) d) := by
  cases e <;>
    cases hs : g.state <;>
      simp only [GameState.handle_event, GameState.mouse_down, GameState.mouse_move,
        GameState.start_game, hs] <;>
      (try split_ifs) <;>
      first
        | (left; trivial)
        | (right; left; rfl)
        | (right; right; exact ⟨_, rfl⟩)

/-- The bird after one `Game.update` call: unchanged (no simulation ran,
or countdown), or exactly one `Bird.update`. -/
theorem update_bird (g : GameState) (o : Oracle) :
    (g.update o).bird = g.bird ∨
    ∃ b0, g.bird = some b0 ∧ (g.update o).bird = some b0.update := by
  unfold GameState.update
  split
  next b0 hs hb hp =>
    split
    · left
      simp only [countdownTick]
      split_ifs <;> rfl
    · right
      refine ⟨b0, hb, ?_⟩
      simp only [groundCheck_bird, powerupLoop_bird, spawnPhase_bird, tickEffectTimers_bird]
  next => left; rfl

/-- The x coordinate of every bird the game ever owns:
`SCREEN_WIDTH // 2 - 15 = 385` (line 1334); nothing afterwards moves the
bird horizontally. -/
def BirdXInv (g : GameState) : Prop :=
  ∀ b : Bird, g.bird = some b → b.x = Fx.ofInt 385

theorem birdXInv_event (g : GameState) (e : Event) (h : BirdXInv g) :
    BirdXInv (g.handle_event e) := by
  intro b hb
  rcases handle_event_bird g e with heq | heq | ⟨d, heq⟩
  · exact h b (heq ▸ hb)
  · rw [heq] at hb
    cases hbo : g.bird with
    | none => rw [hbo] at hb; simp at hb
    | some b0 =>
      rw [hbo] at hb
      injection hb with hb
      rw [← hb]
      exact h b0 hbo
  · rw [heq] at hb
    injection hb with hb
    rw [← hb]
    show Fx.ofInt (Int.fdiv SCREEN_WIDTH 2 - 15) = Fx.ofInt 385
    decide

theorem birdXInv_update (g : GameState) (o : Oracle) (h : BirdXInv g) :
    BirdXInv (g.update o) := by
  intro b hb
  rcases update_bird g o with heq | ⟨b0, hb0, heq⟩
  · exact h b (heq ▸ hb)
  · rw [heq] at hb
    injection hb with hb
    rw [← hb]
    exact h b0 hb0

theorem birdXInv_reachable (g : GameState) (hg : Reachable g) : BirdXInv g := by
  induction hg with
  | refl => intro b hb; cases hb
  | tail _ hstep ih =>
    cases hstep with
    | event e => exact birdXInv_event _ e ih
    | tick o ho => exact birdXInv_update _ o ih

/-- C10: in any reachable state the bird sits at x = 385, and for a bird
at x = 385 and a power-up of the constructed 20 by 20 size the collection
overlap test (lines 1486-1487) and the off-screen test (`x + width < 0`,
lines 1006-1008) can never hold at once — so inside one tick of the loop
of lines 1478-1500 each power-up is removed by at most one of the
collection branch and the off-screen branch, and neither `remove` call can
fail. -/
theorem c10_removal_exclusive :
    (∀ g : GameState, Reachable g → ∀ b : Bird, g.bird = some b → b.x = Fx.ofInt 385) ∧
    (∀ (b : Bird) (pu : PowerUp), b.x = Fx.ofInt 385 → pu.width = 20 →
      pu.is_off_screen = true → b.get_rect.colliderect pu.get_rect = false) := by
  constructor
  · exact fun g hg => birdXInv_reachable g hg
  · intro b pu hbx hw hoff
    simp only [PowerUp.is_off_screen, Fx.add, Fx.ofInt, hw, decide_eq_true_eq] at hoff
    have hrect : (PowerUp.get_rect pu).x ≤ 0 := by
      simp only [PowerUp.get_rect, mkRect, Fx.trunc, Fx.sub, Fx.ofInt, hw,
        show Int.fdiv (20 : ℤ) 2 = 10 from by decide]
      exact tdiv_ten_nonpos (by omega)
    have hrectw : (PowerUp.get_rect pu).w = 20 := by
      simp only [PowerUp.get_rect, mkRect, hw]
    have hbrect : (Bird.get_rect b).x = 385 := by
      simp only [Bird.get_rect, mkRect, Fx.trunc, hbx, Fx.ofInt]
      decide
    simp only [PyRect.colliderect, Bool.and_eq_false_iff]
    left; left; left
    simp only [decide_eq_false_iff_not, not_lt, hbrect, hrectw]
    omega

def c10gs : GameState := initGame.handle_event Event.keySpace

def c10gsBird : Bird := Bird.init (Fx.ofInt 385) (Fx.ofInt 300) Difficulty.medium

def c10pu : PowerUp := { x := ⟨-300⟩, y := ⟨3000⟩, type := PType.shield }

/-- C10 witness: the state one space press after startup owns a bird at
x = 385, and the concrete off-screen power-up at x = -30 does not overlap
it. -/
theorem c10_removal_witness :
    c10gs.bird = some c10gsBird ∧ c10gsBird.x = Fx.ofInt 385 ∧
    c10pu.width = 20 ∧ c10pu.is_off_screen = true ∧
    c10gsBird.get_rect.colliderect c10pu.get_rect = false :=
  ⟨by decide, c10_removal_exclusive.1 c10gs
      (Relation.ReflTransGen.single (Step.event initGame Event.keySpace)) c10gsBird (by decide),
    rfl, by decide,
    c10_removal_exclusive.2 c10gsBird c10pu
      (c10_removal_exclusive.1 c10gs
        (Relation.ReflTransGen.single (Step.event initGame Event.keySpace)) c10gsBird (by decide))
      rfl (by decide)⟩


theorem tickEffectTimers_fields (g : GameState) :
    (tickEffectTimers g).state = g.state ∧
    (tickEffectTimers g).paused = g.paused ∧
    (tickEffectTimers g).difficulty = g.difficulty ∧
    (tickEffectTimers g).pipes = g.pipes ∧
    (tickEffectTimers g).powerups = g.powerups ∧
    (tickEffectTimers g).effects = g.effects ∧
    (tickEffectTimers g).score = g.score ∧
    (tickEffectTimers g).high_score = g.high_score ∧
    (tickEffectTimers g).pipe_spawn_timer = g.pipe_spawn_timer ∧
    (tickEffectTimers g).pipe_spawn_interval = g.pipe_spawn_interval ∧
    (tickEffectTimers g).powerup_spawn_timer = g.powerup_spawn_timer ∧
    (tickEffectTimers g).powerup_spawn_interval = g.powerup_spawn_interval ∧
    (tickEffectTimers g).countdown_active = g.countdown_active ∧
    (tickEffectTimers g).countdown_timer = g.countdown_timer := by
  simp only [tickEffectTimers]
  split_ifs <;> simp

theorem tickEffectTimers_shield (g : GameState) :
    (tickEffectTimers g).shield_active =
      (if g.shield_active then decide (0 < g.shield_timer - 1) else g.shield_active) ∧
    (tickEffectTimers g).shield_timer =
      (if g.shield_active then g.shield_timer - 1 else g.shield_timer) := by
  simp only [tickEffectTimers]
  split_ifs <;> simp_all

theorem tickEffectTimers_slow (g : GameState) :
    (tickEffectTimers g).slow_motion_active =
      (if g.slow_motion_active then decide (0 < g.slow_motion_timer - 1)
        else g.slow_motion_active) ∧
    (tickEffectTimers g).slow_motion_timer =
      (if g.slow_motion_active then g.slow_motion_timer - 1 else g.slow_motion_timer) := by
  simp only [tickEffectTimers]
  split_ifs <;> simp_all

theorem tickEffectTimers_double (g : GameState) :
    (tickEffectTimers g).double_score_active =
      (if g.double_score_active then decide (0 < g.double_score_timer - 1)
        else g.double_score_active) ∧
    (tickEffectTimers g).double_score_timer =
      (if g.double_score_active then g.double_score_timer - 1 else g.double_score_timer) := by
  simp only [tickEffectTimers]
  split_ifs <;> simp_all

/-- The pipe a firing spawn appends (lines 1418-1424). -/
def spawnedPipe (g : GameState) (o : Oracle) : Pipe :=
  if (DIFFICULTY_SETTINGS g.difficulty).has_moving_pipes && o.pipeMovingRoll then
    MovingPipe.init (Fx.ofInt SCREEN_WIDTH) g.difficulty o.pipeTop
  else Pipe.init (Fx.ofInt SCREEN_WIDTH) g.difficulty o.pipeTop

/-- The power-up a firing spawn appends (lines 1432-1433). -/
def spawnedPowerUp (o : Oracle) : PowerUp :=
  PowerUp.init (Fx.ofInt SCREEN_WIDTH) (Fx.ofInt o.powerupY) o.powerupType

theorem spawnPhase_fields (g : GameState) (o : Oracle) :
    (spawnPhase g o).state = g.state ∧
    (spawnPhase g o).paused = g.paused ∧
    (spawnPhase g o).difficulty = g.difficulty ∧
    (spawnPhase g o).effects = g.effects ∧
    (spawnPhase g o).score = g.score ∧
    (spawnPhase g o).high_score = g.high_score ∧
    (spawnPhase g o).shield_active = g.shield_active ∧
    (spawnPhase g o).shield_timer = g.shield_timer ∧
    (spawnPhase g o).slow_motion_active = g.slow_motion_active ∧
    (spawnPhase g o).slow_motion_timer = g.slow_motion_timer ∧
    (spawnPhase g o).double_score_active = g.double_score_active ∧
    (spawnPhase g o).double_score_timer = g.double_score_timer ∧
    (spawnPhase g o).countdown_active = g.countdown_active ∧
    (spawnPhase g o).pipe_spawn_interval = g.pipe_spawn_interval ∧
    (spawnPhase g o).powerup_spawn_interval = g.powerup_spawn_interval := by
  simp only [spawnPhase]
  split_ifs <;> simp

theorem spawnPhase_pipes (g : GameState) (o : Oracle) :
    (spawnPhase g o).pipes =
      (if g.pipe_spawn_timer + 1 ≥ g.pipe_spawn_interval then g.pipes ++ [spawnedPipe g o]
        else g.pipes) ∧
    (spawnPhase g o).pipe_spawn_timer =
      (if g.pipe_spawn_timer + 1 ≥ g.pipe_spawn_interval then 0 else g.pipe_spawn_timer + 1) := by
  simp only [spawnPhase, spawnedPipe]
  split_ifs <;> simp

theorem spawnPhase_powerups (g : GameState) (o : Oracle) :
    (spawnPhase g o).powerups =
      (if (DIFFICULTY_SETTINGS g.difficulty).has_powerups = true ∧
          g.powerup_spawn_timer + 1 ≥ g.powerup_spawn_interval then
        g.powerups ++ [spawnedPowerUp o]
      else g.powerups) ∧
    (spawnPhase g o).powerup_spawn_timer =
      (if (DIFFICULTY_SETTINGS g.difficulty).has_powerups = true then
        (if g.powerup_spawn_timer + 1 ≥ g.powerup_spawn_interval then 0
          else g.powerup_spawn_timer + 1)
      else g.powerup_spawn_timer) := by
  simp only [spawnPhase, spawnedPowerUp]
  split_ifs <;> simp_all

theorem powerupLoop_fields (b : Bird) (l : List PowerUp) (g : GameState) :
    (powerupLoop b g l).state = g.state ∧
    (powerupLoop b g l).paused = g.paused ∧
    (powerupLoop b g l).difficulty = g.difficulty ∧
    (powerupLoop b g l).pipes = g.pipes ∧
    (powerupLoop b g l).score = g.score ∧
    (powerupLoop b g l).high_score = g.high_score ∧
    (powerupLoop b g l).countdown_active = g.countdown_active ∧
    (powerupLoop b g l).pipe_spawn_timer = g.pipe_spawn_timer ∧
    (powerupLoop b g l).pipe_spawn_interval = g.pipe_spawn_interval ∧
    (powerupLoop b g l).powerup_spawn_timer = g.powerup_spawn_timer ∧
    (powerupLoop b g l).powerup_spawn_interval = g.powerup_spawn_interval := by
  induction l generalizing g with
  | nil => simp [powerupLoop]
  | cons p rest ih =>
    simp only [powerupLoop]
    split
    · cases hp : (movePowerUp g.slow_motion_active p).type <;>
        simp only [GameState.collect_powerup, hp] <;>
        exact ih _
    · split
      · exact ih g
      · simpa using ih g

theorem groundCheck_fields (g : GameState) :
    (groundCheck g).paused = g.paused ∧
    (groundCheck g).difficulty = g.difficulty ∧
    (groundCheck g).pipes = g.pipes ∧
    (groundCheck g).powerups = g.powerups ∧
    (groundCheck g).score = g.score ∧
    (groundCheck g).high_score = g.high_score ∧
    (groundCheck g).countdown_active = g.countdown_active ∧
    (groundCheck g).shield_active = g.shield_active ∧
    (groundCheck g).shield_timer = g.shield_timer ∧
    (groundCheck g).slow_motion_active = g.slow_motion_active ∧
    (groundCheck g).slow_motion_timer = g.slow_motion_timer ∧
    (groundCheck g).double_score_active = g.double_score_active ∧
    (groundCheck g).double_score_timer = g.double_score_timer ∧
    (groundCheck g).pipe_spawn_timer = g.pipe_spawn_timer ∧
    (groundCheck g).pipe_spawn_interval = g.pipe_spawn_interval ∧
    (groundCheck g).powerup_spawn_timer = g.powerup_spawn_timer := by
  unfold groundCheck
  split
  · simp
  · split_ifs <;> simp


/-- The fatal-overlap test of lines 1448-1449 for one (already moved)
pipe. -/
def fatalHit (b : Bird) (shield : Bool) (p : Pipe) : Bool :=
  (b.get_rect.colliderect p.get_rects.1 || b.get_rect.colliderect p.get_rects.2) && !shield

/-- How many pipes of a list score this tick (the condition of line 1463
on the moved pipe). -/
def countTrans (b : Bird) (slow : Bool) (ps : List Pipe) : ℕ :=
  ps.countP (fun p => (movePipe slow p).is_passed b.x && !(movePipe slow p).scored)

theorem pipeLoop_cons (b : Bird) (slow shield dbl : Bool) (sc hs : ℤ) (p : Pipe)
    (rest : List Pipe) :
    pipeLoop b slow shield dbl sc hs (p :: rest) =
      if fatalHit b shield (movePipe slow p) = true then
        ⟨movePipe slow p :: rest, sc, hs, true, [crashExplosion b]⟩
      else
        (let trans := (movePipe slow p).is_passed b.x && !(movePipe slow p).scored
         let score1 := if trans then sc + (if dbl then 2 else 1) else sc
         let hs1 := if trans then (if score1 > hs then score1 else hs) else hs
         let r := pipeLoop b slow shield dbl score1 hs1 rest
         { r with pipes := if (tickPipe b slow p).is_off_screen then r.pipes
                           else tickPipe b slow p :: r.pipes }) := by
  rfl

/-- What the obstacle loop of lines 1437-1475 computes, given the game
invariant `score ≤ high_score`: the list splits into a fully processed
initial stretch `pre` and an untouched remainder `post` (empty unless a
fatal collision broke the loop); the score rises by the per-pipe increment
exactly once per scoring transition in `pre`; the high score never drops
and stays at or above the score; and on a fatal collision the colliding
pipe satisfies the overlap test, the crash effect is emitted, and the
pipes after it are left exactly as they were. -/
theorem pipeLoop_chars (b : Bird) (slow shield dbl : Bool) :
    ∀ (ps : List Pipe) (sc hs : ℤ), sc ≤ hs →
    ∃ pre post, ps = pre ++ post ∧
      (pipeLoop b slow shield dbl sc hs ps).score =
        sc + (if dbl then 2 else 1) * (countTrans b slow pre : ℤ) ∧
      hs ≤ (pipeLoop b slow shield dbl sc hs ps).high_score ∧
      (pipeLoop b slow shield dbl sc hs ps).score ≤
        (pipeLoop b slow shield dbl sc hs ps).high_score ∧
      ((pipeLoop b slow shield dbl sc hs ps).gameOver = false →
        post = [] ∧
        (pipeLoop b slow shield dbl sc hs ps).pipes =
          (pre.map (tickPipe b slow)).filter (fun q => !q.is_off_screen) ∧
        (pipeLoop b slow shield dbl sc hs ps).fx = []) ∧
      ((pipeLoop b slow shield dbl sc hs ps).gameOver = true →
        ∃ pc rest, post = pc :: rest ∧
          fatalHit b shield (movePipe slow pc) = true ∧
          (pipeLoop b slow shield dbl sc hs ps).pipes =
            (pre.map (tickPipe b slow)).filter (fun q => !q.is_off_screen) ++
              movePipe slow pc :: rest ∧
          (pipeLoop b slow shield dbl sc hs ps).fx = [crashExplosion b]) := by
  intro ps
  induction ps with
  | nil =>
    intro sc hs h
    refine ⟨[], [], rfl, by simp [pipeLoop, countTrans], by simp [pipeLoop],
      by simpa [pipeLoop] using h, by simp [pipeLoop], by simp [pipeLoop]⟩
  | cons p rest ih =>
    intro sc hs h
    rw [pipeLoop_cons]
    by_cases hf : fatalHit b shield (movePipe slow p) = true
    · rw [if_pos hf]
      refine ⟨[], p :: rest, rfl, by simp [countTrans], le_refl hs, h, ?_, ?_⟩
      · intro hgo; cases hgo
      · intro _
        exact ⟨p, rest, rfl, hf, by simp, rfl⟩
    · rw [if_neg hf]
      by_cases ht : ((movePipe slow p).is_passed b.x && !(movePipe slow p).scored) = true
      · simp only [ht, if_true]
        set score1 := sc + (if dbl then (2 : ℤ) else 1) with hscore1
        set hs1 := if score1 > hs then score1 else hs with hhs1
        have hle1 : score1 ≤ hs1 := by
          rw [hhs1]; split <;> omega
        have hhsle : hs ≤ hs1 := by
          rw [hhs1]; split <;> omega
        obtain ⟨pre, post, hsplit, hsc, hhs, hschs, hnf, hft⟩ := ih score1 hs1 hle1
        refine ⟨p :: pre, post, by rw [hsplit, List.cons_append], ?_, ?_, ?_, ?_, ?_⟩
        · show (pipeLoop b slow shield dbl score1 hs1 rest).score = _
          rw [hsc, hscore1]
          have : countTrans b slow (p :: pre) = countTrans b slow pre + 1 := by
            simp [countTrans, List.countP_cons, ht]
          rw [this]
          push_cast
          ring
        · show hs ≤ (pipeLoop b slow shield dbl score1 hs1 rest).high_score
          exact le_trans hhsle hhs
        · exact hschs
        · intro hgo
          obtain ⟨hpost, hpipes, hfx⟩ := hnf hgo
          refine ⟨hpost, ?_, hfx⟩
          show (if (tickPipe b slow p).is_off_screen then _ else _) = _
          rw [hpipes]
          by_cases hoff : (tickPipe b slow p).is_off_screen = true <;>
            simp [hoff]
        · intro hgo
          obtain ⟨pc, rest2, hpost, hfhit, hpipes, hfx⟩ := hft hgo
          refine ⟨pc, rest2, hpost, hfhit, ?_, hfx⟩
          show (if (tickPipe b slow p).is_off_screen then _ else _) = _
          rw [hpipes]
          by_cases hoff : (tickPipe b slow p).is_off_screen = true <;>
            simp [hoff]
      · have ht2 : ((movePipe slow p).is_passed b.x && !(movePipe slow p).scored) = false :=
          Bool.eq_false_iff.mpr ht
        simp only [ht2, Bool.false_eq_true, if_false]
        obtain ⟨pre, post, hsplit, hsc, hhs, hschs, hnf, hft⟩ := ih sc hs h
        refine ⟨p :: pre, post, by rw [hsplit, List.cons_append], ?_, hhs, hschs, ?_, ?_⟩
        · show (pipeLoop b slow shield dbl sc hs rest).score = _
          rw [hsc]
          have : countTrans b slow (p :: pre) = countTrans b slow pre := by
            simp [countTrans, List.countP_cons, ht]
          rw [this]
        · intro hgo
          obtain ⟨hpost, hpipes, hfx⟩ := hnf hgo
          refine ⟨hpost, ?_, hfx⟩
          show (if (tickPipe b slow p).is_off_screen then _ else _) = _
          rw [hpipes]
          by_cases hoff : (tickPipe b slow p).is_off_screen = true <;>
            simp [hoff]
        · intro hgo
          obtain ⟨pc, rest2, hpost, hfhit, hpipes, hfx⟩ := hft hgo
          refine ⟨pc, rest2, hpost, hfhit, ?_, hfx⟩
          show (if (tickPipe b slow p).is_off_screen then _ else _) = _
          rw [hpipes]
          by_cases hoff : (tickPipe b slow p).is_off_screen = true <;>
            simp [hoff]


theorem collect_powerup_effects (g : GameState) (p : PowerUp) :
    (g.collect_powerup p).effects = g.effects := by
  cases hp : p.type <;> simp [GameState.collect_powerup, hp]

/-- When no power-up of the list overlaps the bird this tick, the loop of
lines 1477-1500 only applies motion and drops off-screen power-ups; the
rest of the game state is untouched. -/
theorem powerupLoop_noCollect (b : Bird) (l : List PowerUp) (g : GameState)
    (h : ∀ p ∈ l, (b.get_rect.colliderect (movePowerUp g.slow_motion_active p).get_rect &&
        !(movePowerUp g.slow_motion_active p).collected) = false) :
    powerupLoop b g l =
      { g with powerups := (l.map (movePowerUp g.slow_motion_active)).filter (fun q => !q.is_off_screen) } := by
  induction l with
  | nil => simp [powerupLoop]
  | cons p rest ih =>
    have hp := h p (List.mem_cons_self p rest)
    have hrest := ih (fun q hq => h q (List.mem_cons_of_mem p hq))
    simp only [powerupLoop, hp, Bool.false_eq_true, if_false]
    by_cases hoff : (movePowerUp g.slow_motion_active p).is_off_screen = true
    · simp [hoff, hrest]
    · have hoff2 : (movePowerUp g.slow_motion_active p).is_off_screen = false :=
        Bool.eq_false_iff.mpr hoff
      simp [hoff2, hrest]

/-- Marker for the crash explosion groups in the effect log. -/
def PEffect.isCrash : PEffect → Bool
  | .crash _ _ => true
  | .collect _ _ _ => false

theorem powerupLoop_crashCount (b : Bird) (l : List PowerUp) (g : GameState) :
    (powerupLoop b g l).effects.countP PEffect.isCrash =
      g.effects.countP PEffect.isCrash := by
  induction l generalizing g with
  | nil => rfl
  | cons p rest ih =>
    simp only [powerupLoop]
    split
    · rw [ih]
      cases hp : (movePowerUp g.slow_motion_active p).type <;>
        simp [GameState.collect_powerup, hp, collectExplosion, List.countP_append,
          List.countP_cons, PEffect.isCrash]
    · split
      · exact ih g
      · simpa using ih g

/-- The ground/ceiling overlap condition of line 1503 on the tick's
bird. -/
def groundCond (b : Bird) : Bool :=
  decide ((b.y.add (Fx.ofInt b.height)).tenths ≥ SCREEN_HEIGHT * 10) ||
    decide (b.y.tenths ≤ 0)

theorem groundCheck_eq (g : GameState) (b0 : Bird) (hb : g.bird = some b0) :
    groundCheck g =
      if groundCond b0 && !g.shield_active then
        { g with state := .GAME_OVER, effects := g.effects ++ [crashExplosion b0] }
      else g := by
  unfold groundCheck
  rw [hb]
  dsimp only
  by_cases h1 : (decide ((b0.y.add (Fx.ofInt b0.height)).tenths ≥ SCREEN_HEIGHT * 10) ||
      decide (b0.y.tenths ≤ 0)) = true
  · rw [if_pos h1]
    by_cases h2 : g.shield_active = true
    · rw [if_neg (by simp [h2]), if_neg (by simp [h2])]
    · have h2f := Bool.eq_false_iff.mpr h2
      rw [if_pos (by simp [h2f]), if_pos (by simp [groundCond, h1, h2f])]
  · have h1f := Bool.eq_false_iff.mpr h1
    rw [if_neg h1, if_neg (by simp [groundCond, h1f])]

/-- The game state just before the obstacle loop runs inside one gameplay
tick of `Game.update`: the updated bird is stored, the effect timers have
ticked and the spawners have run. -/
def preLoopState (g : GameState) (b : Bird) (o : Oracle) : GameState :=
  spawnPhase (tickEffectTimers { g with bird := some b }) o

/-- The game state after the obstacle loop's results are merged back
(lines 1437-1475 writing `pipes`, `score`, `high_score`, the GAME_OVER
transition and the crash effect). -/
def postPipeState (g3 : GameState) (r : PipeLoopRes) : GameState :=
  { g3 with
    pipes := r.pipes
    score := r.score
    high_score := r.high_score
    state := if r.gameOver then Mode.GAME_OVER else g3.state
    effects := g3.effects ++ r.fx }

theorem update_gameplay_eq (g : GameState) (o : Oracle) (b0 : Bird)
    (hs : g.state = Mode.PLAYING) (hb : g.bird = some b0) (hp : g.paused = false)
    (hcd : g.countdown_active = false) :
    g.update o =
      groundCheck (powerupLoop b0.update
        (postPipeState (preLoopState g b0.update o)
          (pipeLoop b0.update (preLoopState g b0.update o).slow_motion_active
            (preLoopState g b0.update o).shield_active
            (preLoopState g b0.update o).double_score_active
            (preLoopState g b0.update o).score (preLoopState g b0.update o).high_score
            (preLoopState g b0.update o).pipes))
        (postPipeState (preLoopState g b0.update o)
          (pipeLoop b0.update (preLoopState g b0.update o).slow_motion_active
            (preLoopState g b0.update o).shield_active
            (preLoopState g b0.update o).double_score_active
            (preLoopState g b0.update o).score (preLoopState g b0.update o).high_score
            (preLoopState g b0.update o).pipes)).powerups) := by
  obtain ⟨run, st, diff, pau, bir, pi, pu, fx, sc, hsc2, pst, pust, psi, pusi, sa, sti,
    sla, slt, da, dt, ms, ss, ds, vd, ct, ca, ctxt⟩ := g
  simp only at hs hb hp hcd
  subst hs hb hp hcd
  rfl


theorem preLoop_fields (g : GameState) (b : Bird) (o : Oracle) :
    (preLoopState g b o).state = g.state ∧
    (preLoopState g b o).paused = g.paused ∧
    (preLoopState g b o).difficulty = g.difficulty ∧
    (preLoopState g b o).bird = some b ∧
    (preLoopState g b o).effects = g.effects ∧
    (preLoopState g b o).score = g.score ∧
    (preLoopState g b o).high_score = g.high_score ∧
    (preLoopState g b o).countdown_active = g.countdown_active := by
  obtain ⟨s1, s2, s3, s4, s5, s6, s7, s8, s9, s10, s11, s12, s13, s14, s15⟩ :=
    spawnPhase_fields (tickEffectTimers { g with bird := some b }) o
  obtain ⟨t1, t2, t3, t4, t5, t6, t7, t8, t9, t10, t11, t12, t13, t14⟩ :=
    tickEffectTimers_fields { g with bird := some b }
  exact ⟨s1.trans t1, s2.trans t2, s3.trans t3,
    (spawnPhase_bird _ _).trans (tickEffectTimers_bird _),
    s4.trans t6, s5.trans t7, s6.trans t8, s13.trans t13⟩

/-- The concrete state of the C2 counterexample: playing on medium, a
pipe one step away from overlapping the bird, shield inactive, and one
far-away power-up that the tick should not touch if the round really
stopped at the collision. -/
def c2State : GameState :=
  { state := Mode.PLAYING
    difficulty := Difficulty.medium
    bird := some { x := ⟨3850⟩, y := ⟨3000⟩, gravity := ⟨8⟩, jump_strength := ⟨-120⟩ }
    pipes := [{ x := ⟨3860⟩, gap := 200, speed := ⟨30⟩, top_height := 350, bottom_y := 550 }]
    powerups := [{ x := ⟨7000⟩, y := ⟨3000⟩, type := PType.double_score }] }

/-- C2, counterexample: in the tick in which the fatal pipe collision
fires (mode becomes GAME_OVER, one crash effect), the power-up still
moves (x 700 → 697) and its animation still advances — the `break` of
line 1460 leaves the loop over pipes only, and the power-up loop and
ground check of lines 1477-1514 run in the same tick, so per-tick
processing does not stop at the collision. -/
theorem c2_counterexample :
    (c2State.update traceOracle).state = Mode.GAME_OVER ∧
    (c2State.update traceOracle).effects.countP PEffect.isCrash = 1 ∧
    c2State.powerups = [{ x := ⟨7000⟩, y := ⟨3000⟩, type := PType.double_score }] ∧
    (c2State.update traceOracle).powerups =
      [{ x := ⟨6970⟩, y := ⟨3000⟩, type := PType.double_score, animation := ⟨2⟩ }] := by
  decide

/-- C2, amended: when a fatal bird/pipe collision occurs in a tick, the
mode transitions to GAME_OVER and the crash effect is emitted, and the
loop over the remaining pipes stops (the pipes after the colliding one
are left exactly as they were) — but the rest of the tick still runs: the
power-up phase applies motion and off-screen removal (and, not shown
here, collection), and the ground/ceiling check still executes and can
emit a second crash effect.  Subsequent ticks do nothing because the mode
is GAME_OVER. -/
theorem c2_fatal_tick_continues (g : GameState) (o : Oracle) (b0 : Bird)
    (hs : g.state = Mode.PLAYING) (hb : g.bird = some b0) (hp : g.paused = false)
    (hcd : g.countdown_active = false) (hsc : g.score ≤ g.high_score)
    (hfatal : (pipeLoop b0.update (preLoopState g b0.update o).slow_motion_active
      (preLoopState g b0.update o).shield_active (preLoopState g b0.update o).double_score_active
      (preLoopState g b0.update o).score (preLoopState g b0.update o).high_score
      (preLoopState g b0.update o).pipes).gameOver = true)
    (hnc : ∀ p ∈ (preLoopState g b0.update o).powerups,
      (b0.update.get_rect.colliderect
          (movePowerUp (preLoopState g b0.update o).slow_motion_active p).get_rect &&
        !(movePowerUp (preLoopState g b0.update o).slow_motion_active p).collected) = false) :
    (g.update o).state = Mode.GAME_OVER ∧
    (g.update o).effects =
      g.effects ++ [crashExplosion b0.update] ++
        (if groundCond b0.update && !(preLoopState g b0.update o).shield_active then
          [crashExplosion b0.update] else []) ∧
    (∃ pre pc rest, (preLoopState g b0.update o).pipes = pre ++ pc :: rest ∧
      fatalHit b0.update (preLoopState g b0.update o).shield_active
        (movePipe (preLoopState g b0.update o).slow_motion_active pc) = true ∧
      (g.update o).pipes =
        (pre.map (tickPipe b0.update (preLoopState g b0.update o).slow_motion_active)).filter
          (fun q => !q.is_off_screen) ++
          movePipe (preLoopState g b0.update o).slow_motion_active pc :: rest) ∧
    (g.update o).powerups =
      ((preLoopState g b0.update o).powerups.map
        (movePowerUp (preLoopState g b0.update o).slow_motion_active)).filter
        (fun q => !q.is_off_screen) := by
  obtain ⟨pf1, pf2, pf3, pf4, pf5, pf6, pf7, pf8⟩ := preLoop_fields g b0.update o
  have hsc3 : (preLoopState g b0.update o).score ≤ (preLoopState g b0.update o).high_score := by
    rw [pf6, pf7]; exact hsc
  obtain ⟨pre, post, hsplit, hscr, hhsu, hschs, hnf, hft⟩ :=
    pipeLoop_chars b0.update (preLoopState g b0.update o).slow_motion_active
      (preLoopState g b0.update o).shield_active (preLoopState g b0.update o).double_score_active
      (preLoopState g b0.update o).pipes (preLoopState g b0.update o).score
      (preLoopState g b0.update o).high_score hsc3
  obtain ⟨pc, rest, hpost, hfhit, hpipes, hfx⟩ := hft hfatal
  rw [update_gameplay_eq g o b0 hs hb hp hcd]
  set G3 := preLoopState g b0.update o with hG3
  set R := pipeLoop b0.update G3.slow_motion_active G3.shield_active G3.double_score_active
    G3.score G3.high_score G3.pipes with hR
  have hpups : (postPipeState G3 R).powerups = G3.powerups := rfl
  rw [hpups, powerupLoop_noCollect b0.update G3.powerups (postPipeState G3 R) hnc]
  have hbird5 : ({ postPipeState G3 R with
      powerups := (G3.powerups.map (movePowerUp (postPipeState G3 R).slow_motion_active)).filter
        (fun q => !q.is_off_screen) } : GameState).bird = some b0.update := pf4
  rw [groundCheck_eq _ b0.update hbird5]
  have hsl : (postPipeState G3 R).slow_motion_active = G3.slow_motion_active := rfl
  have hsh : ({ postPipeState G3 R with
      powerups := (G3.powerups.map (movePowerUp (postPipeState G3 R).slow_motion_active)).filter
        (fun q => !q.is_off_screen) } : GameState).shield_active = G3.shield_active := rfl
  rw [hsh, hsl]
  by_cases hg : (groundCond b0.update && !G3.shield_active) = true
  · rw [if_pos hg, if_pos hg]
    refine ⟨rfl, ?_, ⟨pre, pc, rest, by rw [hsplit, hpost], hfhit, ?_⟩, rfl⟩
    · show G3.effects ++ R.fx ++ [crashExplosion b0.update] = _
      rw [pf5, hfx]
    · show R.pipes = _
      exact hpipes
  · rw [if_neg hg, if_neg hg]
    refine ⟨?_, ?_, ⟨pre, pc, rest, by rw [hsplit, hpost], hfhit, ?_⟩, rfl⟩
    · show (if R.gameOver = true then Mode.GAME_OVER else G3.state) = _
      rw [hfatal]
      simp
    · show G3.effects ++ R.fx = g.effects ++ [crashExplosion b0.update] ++ []
      rw [pf5, hfx, List.append_nil]
    · show R.pipes = _
      exact hpipes


def c2Bird : Bird := { x := ⟨3850⟩, y := ⟨3000⟩, gravity := ⟨8⟩, jump_strength := ⟨-120⟩ }

/-- C2 witness: the amended theorem applied to the concrete colliding
state. -/
theorem c2_fatal_witness :
    c2State.bird = some c2Bird ∧ c2State.state = Mode.PLAYING ∧ c2State.paused = false ∧
    c2State.countdown_active = false ∧ c2State.score ≤ c2State.high_score ∧
    (pipeLoop c2Bird.update (preLoopState c2State c2Bird.update traceOracle).slow_motion_active
      (preLoopState c2State c2Bird.update traceOracle).shield_active
      (preLoopState c2State c2Bird.update traceOracle).double_score_active
      (preLoopState c2State c2Bird.update traceOracle).score
      (preLoopState c2State c2Bird.update traceOracle).high_score
      (preLoopState c2State c2Bird.update traceOracle).pipes).gameOver = true ∧
    (c2State.update traceOracle).state = Mode.GAME_OVER ∧
    (c2State.update traceOracle).powerups =
      ((preLoopState c2State c2Bird.update traceOracle).powerups.map
        (movePowerUp (preLoopState c2State c2Bird.update traceOracle).slow_motion_active)).filter
        (fun q => !q.is_off_screen) :=
  ⟨by decide, by decide, by decide, by decide, by decide, by decide,
    (c2_fatal_tick_continues c2State traceOracle c2Bird (by decide) (by decide) (by decide)
      (by decide) (by decide) (by decide) (by decide)).1,
    (c2_fatal_tick_continues c2State traceOracle c2Bird (by decide) (by decide) (by decide)
      (by decide) (by decide) (by decide) (by decide)).2.2.2⟩


theorem preLoop_effects (g : GameState) (b : Bird) (o : Oracle) :
    (preLoopState g b o).shield_active =
      (if g.shield_active then decide (0 < g.shield_timer - 1) else g.shield_active) ∧
    (preLoopState g b o).shield_timer =
      (if g.shield_active then g.shield_timer - 1 else g.shield_timer) ∧
    (preLoopState g b o).slow_motion_active =
      (if g.slow_motion_active then decide (0 < g.slow_motion_timer - 1)
        else g.slow_motion_active) ∧
    (preLoopState g b o).slow_motion_timer =
      (if g.slow_motion_active then g.slow_motion_timer - 1 else g.slow_motion_timer) ∧
    (preLoopState g b o).double_score_active =
      (if g.double_score_active then decide (0 < g.double_score_timer - 1)
        else g.double_score_active) ∧
    (preLoopState g b o).double_score_timer =
      (if g.double_score_active then g.double_score_timer - 1 else g.double_score_timer) := by
  obtain ⟨s1, s2, s3, s4, s5, s6, s7, s8, s9, s10, s11, s12, s13, s14, s15⟩ :=
    spawnPhase_fields (tickEffectTimers { g with bird := some b }) o
  obtain ⟨u1, u2⟩ := tickEffectTimers_shield { g with bird := some b }
  obtain ⟨v1, v2⟩ := tickEffectTimers_slow { g with bird := some b }
  obtain ⟨w1, w2⟩ := tickEffectTimers_double { g with bird := some b }
  exact ⟨s7.trans u1, s8.trans u2, s9.trans v1, s10.trans v2, s11.trans w1, s12.trans w2⟩

/-- C6: collecting a power-up activates the effect of its type with the
full fixed duration (shield 300, slow-motion 180, double-score 300) and
leaves the two other effects alone — for every prior state, so collecting
while the effect is already active resets the timer to the full value
rather than extending it; and in a gameplay tick in which no power-up is
collected, each active effect's timer decrements by exactly 1 and the
effect deactivates exactly when the decremented timer reaches 0, while
inactive effects stay untouched. -/
theorem c6_effect_timers :
    (∀ (g : GameState) (p : PowerUp),
      (p.type = PType.shield →
        (g.collect_powerup p).shield_active = true ∧ (g.collect_powerup p).shield_timer = 300 ∧
        (g.collect_powerup p).slow_motion_active = g.slow_motion_active ∧
        (g.collect_powerup p).slow_motion_timer = g.slow_motion_timer ∧
        (g.collect_powerup p).double_score_active = g.double_score_active ∧
        (g.collect_powerup p).double_score_timer = g.double_score_timer) ∧
      (p.type = PType.slow_motion →
        (g.collect_powerup p).slow_motion_active = true ∧
        (g.collect_powerup p).slow_motion_timer = 180 ∧
        (g.collect_powerup p).shield_active = g.shield_active ∧
        (g.collect_powerup p).shield_timer = g.shield_timer ∧
        (g.collect_powerup p).double_score_active = g.double_score_active ∧
        (g.collect_powerup p).double_score_timer = g.double_score_timer) ∧
      (p.type = PType.double_score →
        (g.collect_powerup p).double_score_active = true ∧
        (g.collect_powerup p).double_score_timer = 300 ∧
        (g.collect_powerup p).shield_active = g.shield_active ∧
        (g.collect_powerup p).shield_timer = g.shield_timer ∧
        (g.collect_powerup p).slow_motion_active = g.slow_motion_active ∧
        (g.collect_powerup p).slow_motion_timer = g.slow_motion_timer)) ∧
    (∀ (g : GameState) (o : Oracle) (b0 : Bird),
      g.state = Mode.PLAYING → g.bird = some b0 → g.paused = false →
      g.countdown_active = false →
      (∀ p ∈ (preLoopState g b0.update o).powerups,
        (b0.update.get_rect.colliderect
            (movePowerUp (preLoopState g b0.update o).slow_motion_active p).get_rect &&
          !(movePowerUp (preLoopState g b0.update o).slow_motion_active p).collected) = false) →
      ((g.update o).shield_active =
          (if g.shield_active then decide (0 < g.shield_timer - 1) else g.shield_active) ∧
        (g.update o).shield_timer =
          (if g.shield_active then g.shield_timer - 1 else g.shield_timer)) ∧
      ((g.update o).slow_motion_active =
          (if g.slow_motion_active then decide (0 < g.slow_motion_timer - 1)
            else g.slow_motion_active) ∧
        (g.update o).slow_motion_timer =
          (if g.slow_motion_active then g.slow_motion_timer - 1 else g.slow_motion_timer)) ∧
      ((g.update o).double_score_active =
          (if g.double_score_active then decide (0 < g.double_score_timer - 1)
            else g.double_score_active) ∧
        (g.update o).double_score_timer =
          (if g.double_score_active then g.double_score_timer - 1
            else g.double_score_timer))) := by
  constructor
  · intro g p
    refine ⟨fun hp => ?_, fun hp => ?_, fun hp => ?_⟩ <;>
      simp [GameState.collect_powerup, hp]
  · intro g o b0 hs hb hp hcd hnc
    obtain ⟨e1, e2, e3, e4, e5, e6⟩ := preLoop_effects g b0.update o
    rw [update_gameplay_eq g o b0 hs hb hp hcd]
    set G3 := preLoopState g b0.update o with hG3
    set R := pipeLoop b0.update G3.slow_motion_active G3.shield_active G3.double_score_active
      G3.score G3.high_score G3.pipes with hR
    have hpups : (postPipeState G3 R).powerups = G3.powerups := rfl
    rw [hpups, powerupLoop_noCollect b0.update G3.powerups (postPipeState G3 R) hnc]
    obtain ⟨q1, q2, q3, q4, q5, q6, q7, q8, q9, q10, q11, q12, q13, q14, q15, q16⟩ :=
      groundCheck_fields ({ postPipeState G3 R with
        powerups := (G3.powerups.map (movePowerUp (postPipeState G3 R).slow_motion_active)).filter
          (fun q => !q.is_off_screen) } : GameState)
    refine ⟨⟨?_, ?_⟩, ⟨?_, ?_⟩, ⟨?_, ?_⟩⟩
    · exact q8.trans e1
    · exact q9.trans e2
    · exact q10.trans e3
    · exact q11.trans e4
    · exact q12.trans e5
    · exact q13.trans e6

def c6ShieldPu : PowerUp := { x := ⟨3850⟩, y := ⟨3000⟩, type := PType.shield }

def c6State : GameState :=
  { state := Mode.PLAYING
    difficulty := Difficulty.medium
    bird := some c2Bird
    shield_active := true
    shield_timer := 5
    slow_motion_active := true
    slow_motion_timer := 1 }

/-- C6 witness: collecting a shield while the shield is already active
(5 ticks left) resets its timer to exactly 300; and one no-collection
tick on the same state decrements the shield to 4 (still active) and the
slow-motion timer from 1 to 0, deactivating it exactly then. -/
theorem c6_timers_witness :
    c6ShieldPu.type = PType.shield ∧
    c6State.shield_active = true ∧ c6State.shield_timer = 5 ∧
    (c6State.collect_powerup c6ShieldPu).shield_active = true ∧
    (c6State.collect_powerup c6ShieldPu).shield_timer = 300 ∧
    c6State.state = Mode.PLAYING ∧ c6State.paused = false ∧
    c6State.countdown_active = false ∧
    (c6State.update traceOracle).shield_active =
      (if c6State.shield_active then decide (0 < c6State.shield_timer - 1)
        else c6State.shield_active) ∧
    (c6State.update traceOracle).slow_motion_active =
      (if c6State.slow_motion_active then decide (0 < c6State.slow_motion_timer - 1)
        else c6State.slow_motion_active) :=
  ⟨rfl, rfl, rfl,
    ((c6_effect_timers.1 c6State c6ShieldPu).1 rfl).1,
    ((c6_effect_timers.1 c6State c6ShieldPu).1 rfl).2.1,
    rfl, rfl, rfl,
    (c6_effect_timers.2 c6State traceOracle c2Bird rfl rfl rfl rfl (by decide)).1.1,
    (c6_effect_timers.2 c6State traceOracle c2Bird rfl rfl rfl rfl (by decide)).2.1.1⟩


/-- C8: while slow motion is active at the moment the entity loops run
(the flag as consulted at lines 1438 and 1479, i.e. after the tick's own
timer decrement), every tracked pipe and power-up moves left by exactly
`speed // 2` — Python floor division, which for the positive speeds of
this program truncates toward zero, so a speed-1 entity would move 0 —
instead of the full `speed` applied when the flag is off. -/
theorem c8_slow_motion_halving :
    (∀ p : Pipe, (movePipe true p).x = p.x.sub (p.speed.floorDivInt 2) ∧
      (movePipe false p).x = p.x.sub p.speed) ∧
    (∀ p : PowerUp, (movePowerUp true p).x = p.x.sub (p.speed.floorDivInt 2) ∧
      (movePowerUp false p).x = p.x.sub p.speed) ∧
    (Fx.floorDivInt (Fx.ofInt 1) 2 = Fx.ofInt 0 ∧ Fx.floorDivInt ⟨15⟩ 2 = Fx.ofInt 0 ∧
      Fx.floorDivInt (Fx.ofInt 3) 2 = Fx.ofInt 1 ∧ Fx.floorDivInt ⟨45⟩ 2 = Fx.ofInt 2) ∧
    (∀ (g : GameState) (o : Oracle) (b0 : Bird),
      g.state = Mode.PLAYING → g.bird = some b0 → g.paused = false →
      g.countdown_active = false → g.score ≤ g.high_score →
      (preLoopState g b0.update o).slow_motion_active = true →
      (pipeLoop b0.update (preLoopState g b0.update o).slow_motion_active
        (preLoopState g b0.update o).shield_active
        (preLoopState g b0.update o).double_score_active
        (preLoopState g b0.update o).score (preLoopState g b0.update o).high_score
        (preLoopState g b0.update o).pipes).gameOver = false →
      (∀ p ∈ (preLoopState g b0.update o).powerups,
        (b0.update.get_rect.colliderect
            (movePowerUp (preLoopState g b0.update o).slow_motion_active p).get_rect &&
          !(movePowerUp (preLoopState g b0.update o).slow_motion_active p).collected) = false) →
      (g.update o).pipes =
        ((preLoopState g b0.update o).pipes.map (tickPipe b0.update true)).filter
          (fun q => !q.is_off_screen) ∧
      (g.update o).powerups =
        ((preLoopState g b0.update o).powerups.map (movePowerUp true)).filter
          (fun q => !q.is_off_screen)) := by
  refine ⟨?_, ?_, by decide, ?_⟩
  · intro p
    constructor
    · rfl
    · show (if p.moving = true then MovingPipe.update p else Pipe.update p).x = _
      by_cases hm : p.moving = true
      · rw [if_pos hm]
        show (let p1 := Pipe.update p; _ : Pipe).x = _
        simp only [MovingPipe.update, Pipe.update]
        split_ifs <;> rfl
      · rw [if_neg hm]
        rfl
  · intro p
    exact ⟨rfl, rfl⟩
  · intro g o b0 hs hb hp hcd hsc hslow hnofatal hnc
    obtain ⟨pf1, pf2, pf3, pf4, pf5, pf6, pf7, pf8⟩ := preLoop_fields g b0.update o
    have hsc3 : (preLoopState g b0.update o).score ≤ (preLoopState g b0.update o).high_score := by
      rw [pf6, pf7]; exact hsc
    obtain ⟨pre, post, hsplit, hscr, hhsu, hschs, hnf, hft⟩ :=
      pipeLoop_chars b0.update (preLoopState g b0.update o).slow_motion_active
        (preLoopState g b0.update o).shield_active (preLoopState g b0.update o).double_score_active
        (preLoopState g b0.update o).pipes (preLoopState g b0.update o).score
        (preLoopState g b0.update o).high_score hsc3
    obtain ⟨hpost, hpipes, hfx⟩ := hnf hnofatal
    subst hpost
    rw [List.append_nil] at hsplit
    rw [update_gameplay_eq g o b0 hs hb hp hcd]
    set G3 := preLoopState g b0.update o with hG3
    set R := pipeLoop b0.update G3.slow_motion_active G3.shield_active G3.double_score_active
      G3.score G3.high_score G3.pipes with hR
    have hpups : (postPipeState G3 R).powerups = G3.powerups := rfl
    rw [hpups, powerupLoop_noCollect b0.update G3.powerups (postPipeState G3 R) hnc]
    obtain ⟨q1, q2, q3, q4, q5, q6, q7, q8, q9, q10, q11, q12, q13, q14, q15, q16⟩ :=
      groundCheck_fields ({ postPipeState G3 R with
        powerups := (G3.powerups.map (movePowerUp (postPipeState G3 R).slow_motion_active)).filter
          (fun q => !q.is_off_screen) } : GameState)
    constructor
    · refine q3.trans ?_
      show R.pipes = _
      rw [hpipes, ← hsplit, hslow]
    · refine q4.trans ?_
      show (G3.powerups.map (movePowerUp G3.slow_motion_active)).filter
          (fun q => !q.is_off_screen) = _
      rw [hslow]

def c8State : GameState :=
  { state := Mode.PLAYING
    difficulty := Difficulty.medium
    bird := some c2Bird
    pipes := [{ x := ⟨6000⟩, gap := 200, speed := ⟨30⟩, top_height := 250, bottom_y := 450 }]
    powerups := [{ x := ⟨7000⟩, y := ⟨3000⟩, type := PType.shield }]
    slow_motion_active := true
    slow_motion_timer := 10 }

/-- C8 witness: in a slow-motion tick on a concrete state, the pipe with
speed 3 moves by exactly 3 // 2 = 1 (x 600 → 599) and the power-up with
speed 3 likewise (x 700 → 699). -/
theorem c8_slow_witness :
    c8State.state = Mode.PLAYING ∧ c8State.paused = false ∧
    c8State.countdown_active = false ∧ c8State.score ≤ c8State.high_score ∧
    (preLoopState c8State c2Bird.update traceOracle).slow_motion_active = true ∧
    (c8State.update traceOracle).pipes =
      ((preLoopState c8State c2Bird.update traceOracle).pipes.map (tickPipe c2Bird.update true)).filter
        (fun q => !q.is_off_screen) ∧
    (c8State.update traceOracle).pipes.map (fun p => p.x) = [⟨5990⟩] ∧
    (c8State.update traceOracle).powerups.map (fun p => p.x) = [⟨6990⟩] :=
  ⟨rfl, rfl, rfl, by decide, by decide,
    ((c8_slow_motion_halving.2.2.2 c8State traceOracle c2Bird rfl rfl rfl rfl (by decide)
      (by decide) (by decide) (by decide))).1,
    by decide, by decide⟩


/-- Iterated simulation ticks: `iterUpdates os n g` runs `n` ticks, the
i-th drawing `os i`. -/
def iterUpdates (os : ℕ → Oracle) : ℕ → GameState → GameState
  | 0, g => g
  | n + 1, g => (iterUpdates os n g).update (os n)

theorem update_countdown_eq (g : GameState) (o : Oracle) (b0 : Bird)
    (hs : g.state = Mode.PLAYING) (hb : g.bird = some b0) (hp : g.paused = false)
    (hcd : g.countdown_active = true) : g.update o = countdownTick g := by
  obtain ⟨run, st, diff, pau, bir, pi, pu, fx, sc, hsc2, pst, pust, psi, pusi, sa, sti,
    sla, slt, da, dt, ms, ss, ds, vd, ct, ca, ctxt⟩ := g
  simp only at hs hb hp hcd
  subst hs hb hp hcd
  rfl

theorem countdownTick_pos (g : GameState) (h : 0 < g.countdown_timer - 1) :
    ∃ txt, countdownTick g =
      { g with countdown_timer := g.countdown_timer - 1, countdown_text := txt } := by
  by_cases h1 : g.countdown_timer - 1 ≤ 0
  · omega
  by_cases h2 : g.countdown_timer - 1 = 60
  · exact ⟨"游戏开始", by unfold countdownTick; rw [if_neg h1, if_pos h2]⟩
  by_cases h3 : g.countdown_timer - 1 = 120
  · exact ⟨"1", by unfold countdownTick; rw [if_neg h1, if_neg h2, if_pos h3]⟩
  by_cases h4 : g.countdown_timer - 1 = 180
  · exact ⟨"2", by unfold countdownTick; rw [if_neg h1, if_neg h2, if_neg h3, if_pos h4]⟩
  by_cases h5 : g.countdown_timer - 1 = 240
  · exact ⟨"3", by unfold countdownTick; rw [if_neg h1, if_neg h2, if_neg h3, if_neg h4, if_pos h5]⟩
  · exact ⟨g.countdown_text,
      by unfold countdownTick; rw [if_neg h1, if_neg h2, if_neg h3, if_neg h4, if_neg h5]⟩

theorem countdownTick_zero (g : GameState) (h : g.countdown_timer - 1 ≤ 0) :
    countdownTick g =
      { g with countdown_timer := g.countdown_timer - 1, countdown_active := false } := by
  unfold countdownTick
  rw [if_pos h]

theorem update_gameplay_bird (g : GameState) (o : Oracle) (b0 : Bird)
    (hs : g.state = Mode.PLAYING) (hb : g.bird = some b0) (hp : g.paused = false)
    (hcd : g.countdown_active = false) : (g.update o).bird = some b0.update := by
  rw [update_gameplay_eq g o b0 hs hb hp hcd, groundCheck_bird, powerupLoop_bird]
  exact (preLoop_fields g b0.update o).2.2.2.1

/-- The whole state during the countdown: after `n ≤ 239` ticks from a
round start only the countdown timer (and its on-screen text) have
changed. -/
theorem c4_countdown_state (g0 : GameState) (os : ℕ → Oracle) (hp : g0.paused = false) :
    ∀ n : ℕ, n ≤ 239 →
      ∃ txt, iterUpdates os n g0.start_game =
        { g0.start_game with countdown_timer := 240 - (n : ℤ), countdown_text := txt } := by
  intro n
  induction n with
  | zero =>
    intro _
    refine ⟨"3", ?_⟩
    show g0.start_game = _
    rw [show (240 : ℤ) - ((0 : ℕ) : ℤ) = 240 from by decide]
    rfl
  | succ n ih =>
    intro hn
    obtain ⟨txt, hrec⟩ := ih (by omega)
    have hstep : iterUpdates os (n + 1) g0.start_game =
        countdownTick ({ g0.start_game with countdown_timer := 240 - (n : ℤ), countdown_text := txt }) := by
      show (iterUpdates os n g0.start_game).update (os n) = _
      rw [hrec]
      exact update_countdown_eq _ (os n)
        (Bird.init (Fx.ofInt (Int.fdiv SCREEN_WIDTH 2 - 15)) (Fx.ofInt (Int.fdiv SCREEN_HEIGHT 2))
          g0.difficulty) rfl rfl hp rfl
    obtain ⟨txt2, htick⟩ := countdownTick_pos
      ({ g0.start_game with countdown_timer := 240 - (n : ℤ), countdown_text := txt })
      (by show 0 < 240 - (n : ℤ) - 1; omega)
    refine ⟨txt2, ?_⟩
    rw [hstep, htick]
    have harith : (240 : ℤ) - (n : ℤ) - 1 = 240 - ((n + 1 : ℕ) : ℤ) := by push_cast; ring
    show ({ g0.start_game with countdown_timer := 240 - (n : ℤ) - 1, countdown_text := txt2 }
      : GameState) = _
    rw [harith]

/-- The state right after the 240th countdown tick: the countdown has
ended and nothing else has changed. -/
theorem c4_countdown_end (g0 : GameState) (os : ℕ → Oracle) (hp : g0.paused = false) :
    ∃ txt, iterUpdates os 240 g0.start_game =
      { g0.start_game with countdown_timer := 0, countdown_active := false, countdown_text := txt } := by
  obtain ⟨txt, hrec⟩ := c4_countdown_state g0 os hp 239 (by omega)
  have hstep : iterUpdates os 240 g0.start_game =
      countdownTick ({ g0.start_game with countdown_timer := 240 - ((239 : ℕ) : ℤ), countdown_text := txt }) := by
    show (iterUpdates os 239 g0.start_game).update (os 239) = _
    rw [hrec]
    exact update_countdown_eq _ (os 239)
      (Bird.init (Fx.ofInt (Int.fdiv SCREEN_WIDTH 2 - 15)) (Fx.ofInt (Int.fdiv SCREEN_HEIGHT 2))
        g0.difficulty) rfl rfl hp rfl
  refine ⟨txt, ?_⟩
  rw [hstep, countdownTick_zero _ (by show 240 - ((239 : ℕ) : ℤ) - 1 ≤ 0; decide)]
  show ({ g0.start_game with countdown_timer := 240 - ((239 : ℕ) : ℤ) - 1, countdown_active := false, countdown_text := txt } : GameState) = _
  rw [show (240 : ℤ) - ((239 : ℕ) : ℤ) - 1 = 0 from by decide]

/-- C4: starting a round begins a 240-tick countdown, and for every
`n ≤ 239` the state after `n` ticks differs from the spawn state only in
the countdown timer and its on-screen text — in particular the pipe list
is still empty, the score is 0, the spawn counters and effect timers are
untouched, and the bird (position and velocity) is exactly the spawned
bird; the 240th tick merely switches the countdown off, and on the next
tick normal simulation begins (the bird's physics runs: its velocity
becomes the difficulty's gravity). -/
theorem c4_countdown_suspends (g0 : GameState) (os : ℕ → Oracle) (hp : g0.paused = false) :
    (∀ n : ℕ, n ≤ 239 →
      (iterUpdates os n g0.start_game).pipes = [] ∧
      (iterUpdates os n g0.start_game).score = 0 ∧
      (iterUpdates os n g0.start_game).powerups = [] ∧
      (iterUpdates os n g0.start_game).bird = g0.start_game.bird ∧
      (iterUpdates os n g0.start_game).shield_timer = 0 ∧
      (iterUpdates os n g0.start_game).slow_motion_timer = 0 ∧
      (iterUpdates os n g0.start_game).double_score_timer = 0 ∧
      (iterUpdates os n g0.start_game).pipe_spawn_timer = 0 ∧
      (iterUpdates os n g0.start_game).powerup_spawn_timer = 0 ∧
      (iterUpdates os n g0.start_game).countdown_active = true ∧
      (iterUpdates os n g0.start_game).countdown_timer = 240 - (n : ℤ)) ∧
    ((iterUpdates os 240 g0.start_game).pipes = [] ∧
      (iterUpdates os 240 g0.start_game).score = 0 ∧
      (iterUpdates os 240 g0.start_game).bird = g0.start_game.bird ∧
      (iterUpdates os 240 g0.start_game).countdown_active = false) ∧
    (∃ b : Bird, (iterUpdates os 241 g0.start_game).bird = some b ∧
      b.velocity = (DIFFICULTY_SETTINGS g0.difficulty).gravity ∧
      b.y = (Fx.ofInt (Int.fdiv SCREEN_HEIGHT 2)).add b.velocity) := by
  refine ⟨?_, ?_, ?_⟩
  · intro n hn
    obtain ⟨txt, heq⟩ := c4_countdown_state g0 os hp n hn
    rw [heq]
    exact ⟨rfl, rfl, rfl, rfl, rfl, rfl, rfl, rfl, rfl, rfl, rfl⟩
  · obtain ⟨txt, heq⟩ := c4_countdown_end g0 os hp
    rw [heq]
    exact ⟨rfl, rfl, rfl, rfl⟩
  · obtain ⟨txt, heq⟩ := c4_countdown_end g0 os hp
    refine ⟨(Bird.init (Fx.ofInt (Int.fdiv SCREEN_WIDTH 2 - 15))
      (Fx.ofInt (Int.fdiv SCREEN_HEIGHT 2)) g0.difficulty).update, ?_, ?_, ?_⟩
    · show ((iterUpdates os 240 g0.start_game).update (os 240)).bird = _
      rw [heq]
      exact update_gameplay_bird _ (os 240) _ rfl rfl hp rfl
    · show Fx.add ⟨0 * 10⟩ (DIFFICULTY_SETTINGS g0.difficulty).gravity = _
      show Fx.mk (0 * 10 + (DIFFICULTY_SETTINGS g0.difficulty).gravity.tenths) = _
      rw [show (0 : ℤ) * 10 + (DIFFICULTY_SETTINGS g0.difficulty).gravity.tenths =
        (DIFFICULTY_SETTINGS g0.difficulty).gravity.tenths from by ring]
    · rfl


/-- C4 witness: from the fresh menu state, start a round and tick 239
times — the pipe list is still empty and the score still 0; the 240th
tick ends the countdown. -/
theorem c4_countdown_witness :
    initGame.paused = false ∧ (239 : ℕ) ≤ 239 ∧
    (iterUpdates (fun _ => traceOracle) 239 initGame.start_game).pipes = [] ∧
    (iterUpdates (fun _ => traceOracle) 239 initGame.start_game).score = 0 ∧
    (iterUpdates (fun _ => traceOracle) 240 initGame.start_game).countdown_active = false :=
  ⟨rfl, by omega,
    ((c4_countdown_suspends initGame (fun _ => traceOracle) rfl).1 239 (by omega)).1,
    ((c4_countdown_suspends initGame (fun _ => traceOracle) rfl).1 239 (by omega)).2.1,
    (c4_countdown_suspends initGame (fun _ => traceOracle) rfl).2.1.2.2.2⟩


theorem countdownTick_score (g : GameState) :
    (countdownTick g).score = g.score ∧ (countdownTick g).high_score = g.high_score := by
  simp only [countdownTick]
  split_ifs <;> exact ⟨rfl, rfl⟩

/-- Input handling never touches the high score, and touches the score
only by resetting it to 0 via `start_game`. -/
theorem handle_event_score (g : GameState) (e : Event) :
    (g.handle_event e).high_score = g.high_score ∧
    ((g.handle_event e).score = g.score ∨ (g.handle_event e).score = 0) := by
  cases e <;>
    cases hs : g.state <;>
      simp only [GameState.handle_event, GameState.mouse_down, GameState.mouse_move,
        GameState.start_game, hs] <;>
      (try split_ifs) <;>
      first
        | exact ⟨rfl, Or.inl rfl⟩
        | exact ⟨rfl, Or.inr rfl⟩
        | simp

theorem update_noop (g : GameState) (o : Oracle)
    (h : ¬(g.state = Mode.PLAYING ∧ g.bird.isSome = true ∧ g.paused = false)) :
    g.update o = g := by
  obtain ⟨run, st, diff, pau, bir, pi, pu, fx, sc, hsc2, pst, pust, psi, pusi, sa, sti,
    sla, slt, da, dt, ms, ss, ds, vd, ct, ca, ctxt⟩ := g
  cases st <;> cases bir <;> cases pau <;>
    first
      | rfl
      | (exact absurd ⟨rfl, rfl, rfl⟩ h)

theorem pipeLoop_hs_mono (b : Bird) (slow shield dbl : Bool) :
    ∀ (ps : List Pipe) (sc hs : ℤ), hs ≤ (pipeLoop b slow shield dbl sc hs ps).high_score := by
  intro ps
  induction ps with
  | nil => intro sc hs; exact le_refl hs
  | cons p rest ih =>
    intro sc hs
    rw [pipeLoop_cons]
    by_cases hf : fatalHit b shield (movePipe slow p) = true
    · rw [if_pos hf]
    · rw [if_neg hf]
      by_cases ht : ((movePipe slow p).is_passed b.x && !(movePipe slow p).scored) = true
      · simp only [ht, if_true]
        refine le_trans ?_ (ih _ _)
        split <;> omega
      · have ht2 : ((movePipe slow p).is_passed b.x && !(movePipe slow p).scored) = false :=
          Bool.eq_false_iff.mpr ht
        simp only [ht2, Bool.false_eq_true, if_false]
        exact ih sc hs

theorem update_high_score_mono (g : GameState) (o : Oracle) :
    g.high_score ≤ (g.update o).high_score := by
  by_cases hplay : g.state = Mode.PLAYING ∧ g.bird.isSome = true ∧ g.paused = false
  · obtain ⟨hs, hbs, hp⟩ := hplay
    obtain ⟨b0, hb⟩ := Option.isSome_iff_exists.mp hbs
    by_cases hcd : g.countdown_active = true
    · rw [update_countdown_eq g o b0 hs hb hp hcd]
      rw [(countdownTick_score g).2]
    · rw [update_gameplay_eq g o b0 hs hb hp (Bool.eq_false_iff.mpr hcd)]
      rw [(groundCheck_fields _).2.2.2.2.2.1, (powerupLoop_fields _ _ _).2.2.2.2.2.1]
      show g.high_score ≤ (pipeLoop b0.update (preLoopState g b0.update o).slow_motion_active
        (preLoopState g b0.update o).shield_active (preLoopState g b0.update o).double_score_active
        (preLoopState g b0.update o).score (preLoopState g b0.update o).high_score
        (preLoopState g b0.update o).pipes).high_score
      rw [← (preLoop_fields g b0.update o).2.2.2.2.2.2.1]
      exact pipeLoop_hs_mono _ _ _ _ _ _ _
  · rw [update_noop g o hplay]

theorem step_high_score_mono {g g' : GameState} (h : Step g g') :
    g.high_score ≤ g'.high_score := by
  cases h with
  | event e => exact le_of_eq (handle_event_score g e).1.symm
  | tick o ho => exact update_high_score_mono g o

theorem movePipe_scored (slow : Bool) (p : Pipe) : (movePipe slow p).scored = p.scored := by
  simp only [movePipe, MovingPipe.update, Pipe.update]
  split_ifs <;> rfl

theorem tickPipe_scored (b : Bird) (slow : Bool) (p : Pipe) :
    (tickPipe b slow p).scored = (p.scored || (movePipe slow p).is_passed b.x) := by
  have hmc := movePipe_scored slow p
  unfold tickPipe scoreStep
  cases hsc : (movePipe slow p).scored <;>
    cases hps : (movePipe slow p).is_passed b.x <;>
      rw [hsc] at hmc <;>
        simp [hsc, hps, ← hmc]

/-- **C3.**  The `scored` flag of a pipe is preserved by motion and, after
the scoring step of lines 1462-1466, equals its old value or-ed with the
passed test `bird.x > pipe.x + pipe.width` on the moved pipe — so it goes
from `false` to `true` at most once, exactly on a tick where the bird has
passed the pipe; the obstacle loop raises the score by the per-transition
increment (2 with double score active, 1 otherwise) once per scoring
transition in the processed prefix; and the high score never decreases
along any sequence of game steps. -/
theorem c3_scoring :
    (∀ (slow : Bool) (p : Pipe), (movePipe slow p).scored = p.scored) ∧
    (∀ (b : Bird) (slow : Bool) (p : Pipe),
      (tickPipe b slow p).scored = (p.scored || (movePipe slow p).is_passed b.x)) ∧
    (∀ (b : Bird) (slow shield dbl : Bool) (ps : List Pipe) (sc hs : ℤ), sc ≤ hs →
      ∃ pre post, ps = pre ++ post ∧
        (pipeLoop b slow shield dbl sc hs ps).score =
          sc + (if dbl then 2 else 1) * (countTrans b slow pre : ℤ)) ∧
    ∀ g h : GameState, Relation.ReflTransGen Step g h → g.high_score ≤ h.high_score := by
  refine ⟨movePipe_scored, tickPipe_scored, ?_, ?_⟩
  · intro b slow shield dbl ps sc hs h
    obtain ⟨pre, post, h1, h2, _⟩ := pipeLoop_chars b slow shield dbl ps sc hs h
    exact ⟨pre, post, h1, h2⟩
  · intro g h hr
    induction hr with
    | refl => exact le_refl _
    | tail _ hstep ih => exact le_trans ih (step_high_score_mono hstep)

/-- Concrete instantiation of `c3_scoring`: the flag equation on a static
medium pipe the bird has passed, the loop on an empty list, and high-score
monotonicity along the one-step run that presses space in the menu. -/
theorem c3_scoring_witness :
    (tickPipe (Bird.init (Fx.ofInt 385) (Fx.ofInt 300) .medium) false
        (Pipe.init (Fx.ofInt 100) .medium 250)).scored =
      ((Pipe.init (Fx.ofInt 100) .medium 250).scored ||
        (movePipe false (Pipe.init (Fx.ofInt 100) .medium 250)).is_passed
          (Bird.init (Fx.ofInt 385) (Fx.ofInt 300) .medium).x) ∧
    (∃ pre post, ([] : List Pipe) = pre ++ post ∧
      (pipeLoop (Bird.init (Fx.ofInt 385) (Fx.ofInt 300) .medium)
          false false false 0 5 []).score =
        0 + (if false then 2 else 1) *
          (countTrans (Bird.init (Fx.ofInt 385) (Fx.ofInt 300) .medium) false pre : ℤ)) ∧
    initGame.high_score ≤ (initGame.handle_event Event.keySpace).high_score :=
  ⟨c3_scoring.2.1 _ false _,
   c3_scoring.2.2.1 _ false false false [] 0 5 (by decide),
   c3_scoring.2.2.2 initGame (initGame.handle_event Event.keySpace)
     (Relation.ReflTransGen.single (Step.event initGame Event.keySpace))⟩

/-- A freshly started round with the pause flag raised by escape. -/
def c9gs : GameState := { GameState.start_game initGame with paused := true }

theorem countdownTick_paused (g : GameState) : (countdownTick g).paused = g.paused := by
  simp only [countdownTick]
  split_ifs <;> rfl

theorem handle_event_paused (g : GameState) (e : Event)
    (hinv : g.state ≠ Mode.PLAYING → g.paused = false) :
    (g.handle_event e).state ≠ Mode.PLAYING → (g.handle_event e).paused = false := by
  cases e <;>
    cases hs : g.state <;>
      simp only [GameState.handle_event, GameState.mouse_down, GameState.mouse_move,
        GameState.start_game, hs] <;>
      (try split_ifs) <;>
      intro hns <;>
      first
        | exact absurd rfl hns
        | exact absurd hs hns
        | exact hinv (by simp [hs])

theorem update_paused_pres (g : GameState) (o : Oracle) (hp : g.paused = false) :
    (g.update o).paused = false := by
  by_cases hplay : g.state = Mode.PLAYING ∧ g.bird.isSome = true ∧ g.paused = false
  · obtain ⟨hst, hbs, _⟩ := hplay
    obtain ⟨b0, hb⟩ := Option.isSome_iff_exists.mp hbs
    by_cases hcd : g.countdown_active = true
    · rw [update_countdown_eq g o b0 hst hb hp hcd, countdownTick_paused, hp]
    · rw [update_gameplay_eq g o b0 hst hb hp (Bool.eq_false_iff.mpr hcd)]
      rw [(groundCheck_fields _).1, (powerupLoop_fields _ _ _).2.1]
      exact (preLoop_fields g b0.update o).2.1.trans hp
  · rw [update_noop g o hplay]
    exact hp

theorem update_paused_inv (g : GameState) (o : Oracle)
    (hinv : g.state ≠ Mode.PLAYING → g.paused = false) :
    (g.update o).state ≠ Mode.PLAYING → (g.update o).paused = false := by
  intro hns
  cases hpp : g.paused
  · exact update_paused_pres g o hpp
  · have hst : g.state = Mode.PLAYING := by
      by_contra hc
      rw [hinv hc] at hpp
      cases hpp
    have hnoop : g.update o = g :=
      update_noop g o (fun hc => by rw [hpp] at hc; simp at hc)
    rw [hnoop] at hns
    exact absurd hst hns

theorem paused_inv_reachable (g : GameState) (hg : Reachable g) :
    g.state ≠ Mode.PLAYING → g.paused = false := by
  induction hg with
  | refl => intro _; rfl
  | tail _ hstep ih =>
    cases hstep with
    | event e => exact handle_event_paused _ e ih
    | tick o ho => exact update_paused_inv _ o ih

/-- **C9.**  In every reachable state the paused flag can be set only
while the mode is PLAYING (any other mode forces `paused = false`); a
simulation tick with `paused = true` changes nothing (line 1373 guards the
whole of `Game.update`); and the escape key while PLAYING stays in
PLAYING and just toggles the flag, so unpausing returns to PLAYING. -/
theorem c9_pause :
    (∀ g : GameState, Reachable g → g.state ≠ Mode.PLAYING → g.paused = false) ∧
    (∀ (g : GameState) (o : Oracle), g.paused = true → g.update o = g) ∧
    (∀ g : GameState, g.state = Mode.PLAYING →
      (g.handle_event Event.keyEscape).state = Mode.PLAYING ∧
      (g.handle_event Event.keyEscape).paused = !g.paused) := by
  refine ⟨paused_inv_reachable, ?_, ?_⟩
  · intro g o hp
    exact update_noop g o (fun hc => by rw [hp] at hc; simp at hc)
  · intro g hst
    refine ⟨?_, ?_⟩
    · simp only [GameState.handle_event, hst]
    · simp only [GameState.handle_event, hst]

/-- Concrete instantiation of `c9_pause`: the initial menu state is not
paused, a paused round ignores a tick, and escape in a fresh round keeps
PLAYING while flipping the flag. -/
theorem c9_pause_witness :
    initGame.paused = false ∧
    c9gs.update traceOracle = c9gs ∧
    ((GameState.start_game initGame).handle_event Event.keyEscape).state = Mode.PLAYING ∧
    ((GameState.start_game initGame).handle_event Event.keyEscape).paused =
      !(GameState.start_game initGame).paused :=
  ⟨c9_pause.1 initGame Relation.ReflTransGen.refl (by decide),
   c9_pause.2.1 c9gs traceOracle rfl,
   (c9_pause.2.2 (GameState.start_game initGame) rfl).1,
   (c9_pause.2.2 (GameState.start_game initGame) rfl).2⟩

/-- The operations the C7 run lemma admits: simulation ticks and the
space-key jump. -/
def okOp : Op → Bool
  | Op.event Event.keySpace => true
  | Op.tick _ => true
  | _ => false

/-- Number of simulation ticks in an operation list. -/
def countTicks : List Op → ℕ
  | [] => 0
  | Op.tick _ :: l => countTicks l + 1
  | Op.event _ :: l => countTicks l

/-- Every operation of the list leaves the game in PLAYING (the claim's
"no collisions" side condition). -/
def allPlaying (g : GameState) : List Op → Bool
  | [] => true
  | op :: l => decide ((applyOp g op).state = Mode.PLAYING) && allPlaying (applyOp g op) l

/-- The claim's run invariant: a medium round past its countdown whose
pipe list is still empty with the spawn counter at `k`. -/
def C7Inv (k : ℤ) (g : GameState) : Prop :=
  g.state = Mode.PLAYING ∧ g.paused = false ∧ g.countdown_active = false ∧
  g.bird.isSome = true ∧ g.difficulty = Difficulty.medium ∧
  g.pipes = [] ∧ g.pipe_spawn_timer = k ∧ g.pipe_spawn_interval = 90

theorem movePipe_x (slow : Bool) (p : Pipe) :
    (movePipe slow p).x =
      (if slow then p.x.sub (p.speed.floorDivInt 2) else p.x.sub p.speed) := by
  simp only [movePipe, MovingPipe.update, Pipe.update]
  split_ifs <;> rfl

theorem movePipe_width (slow : Bool) (p : Pipe) : (movePipe slow p).width = p.width := by
  simp only [movePipe, MovingPipe.update, Pipe.update]
  split_ifs <;> rfl

theorem scoreStep_off (b : Bird) (p : Pipe) :
    (scoreStep b p).is_off_screen = p.is_off_screen := by
  unfold scoreStep
  split_ifs <;> rfl

theorem spawnedPipe_x (g : GameState) (o : Oracle) :
    (spawnedPipe g o).x = Fx.ofInt SCREEN_WIDTH := by
  unfold spawnedPipe MovingPipe.init Pipe.init
  split_ifs <;> rfl

theorem spawnedPipe_width (g : GameState) (o : Oracle) : (spawnedPipe g o).width = 60 := by
  unfold spawnedPipe MovingPipe.init Pipe.init
  split_ifs <;> rfl

theorem spawnedPipe_speed (g : GameState) (o : Oracle) :
    (spawnedPipe g o).speed = (DIFFICULTY_SETTINGS g.difficulty).pipe_speed := by
  unfold spawnedPipe MovingPipe.init Pipe.init
  split_ifs <;> rfl

theorem spawnTick_not_off (g : GameState) (o : Oracle) (b : Bird) (slow : Bool)
    (hd : g.difficulty = Difficulty.medium) :
    (tickPipe b slow (spawnedPipe g o)).is_off_screen = false := by
  have hx : (spawnedPipe g o).x = Fx.ofInt SCREEN_WIDTH := spawnedPipe_x g o
  have hw : (spawnedPipe g o).width = 60 := spawnedPipe_width g o
  have hsp : (spawnedPipe g o).speed = Fx.ofInt 3 := by
    rw [spawnedPipe_speed g o, hd]
    rfl
  show (scoreStep b (movePipe slow (spawnedPipe g o))).is_off_screen = false
  rw [scoreStep_off]
  unfold Pipe.is_off_screen
  rw [movePipe_x, movePipe_width, hx, hw, hsp]
  cases slow <;> decide

theorem update_spawn_timer (g : GameState) (o : Oracle) (b0 : Bird)
    (hst : g.state = Mode.PLAYING) (hb : g.bird = some b0) (hp : g.paused = false)
    (hcd : g.countdown_active = false) :
    (g.update o).pipe_spawn_timer =
      (if g.pipe_spawn_timer + 1 ≥ g.pipe_spawn_interval then 0
       else g.pipe_spawn_timer + 1) := by
  rw [update_gameplay_eq g o b0 hst hb hp hcd]
  rw [(groundCheck_fields _).2.2.2.2.2.2.2.2.2.2.2.2.2.1,
    (powerupLoop_fields _ _ _).2.2.2.2.2.2.2.1]
  show (spawnPhase (tickEffectTimers { g with bird := some b0.update }) o).pipe_spawn_timer = _
  rw [(spawnPhase_pipes _ o).2,
    (tickEffectTimers_fields _).2.2.2.2.2.2.2.2.1,
    (tickEffectTimers_fields _).2.2.2.2.2.2.2.2.2.1]

theorem preLoop_pipes (g : GameState) (b : Bird) (o : Oracle) :
    (preLoopState g b o).pipes =
      (if g.pipe_spawn_timer + 1 ≥ g.pipe_spawn_interval then
        g.pipes ++ [spawnedPipe g o]
       else g.pipes) := by
  have hd := (tickEffectTimers_fields { g with bird := some b }).2.2.1
  show (spawnPhase (tickEffectTimers { g with bird := some b }) o).pipes = _
  rw [(spawnPhase_pipes _ o).1,
    (tickEffectTimers_fields _).2.2.2.1,
    (tickEffectTimers_fields _).2.2.2.2.2.2.2.2.1,
    (tickEffectTimers_fields _).2.2.2.2.2.2.2.2.2.1]
  simp only [spawnedPipe, hd]

theorem update_c7_fields (g : GameState) (o : Oracle) (b0 : Bird)
    (hst : g.state = Mode.PLAYING) (hb : g.bird = some b0) (hp : g.paused = false)
    (hcd : g.countdown_active = false) :
    (g.update o).countdown_active = false ∧
    (g.update o).pipe_spawn_interval = g.pipe_spawn_interval ∧
    (g.update o).difficulty = g.difficulty := by
  rw [update_gameplay_eq g o b0 hst hb hp hcd]
  refine ⟨?_, ?_, ?_⟩
  · rw [(groundCheck_fields _).2.2.2.2.2.2.1, (powerupLoop_fields _ _ _).2.2.2.2.2.2.1]
    exact ((preLoop_fields g b0.update o).2.2.2.2.2.2.2).trans hcd
  · rw [(groundCheck_fields _).2.2.2.2.2.2.2.2.2.2.2.2.2.2.1,
      (powerupLoop_fields _ _ _).2.2.2.2.2.2.2.2.1]
    show (spawnPhase (tickEffectTimers { g with bird := some b0.update }) o).pipe_spawn_interval = _
    rw [(spawnPhase_fields _ o).2.2.2.2.2.2.2.2.2.2.2.2.2.1,
      (tickEffectTimers_fields _).2.2.2.2.2.2.2.2.2.1]
  · rw [(groundCheck_fields _).2.1, (powerupLoop_fields _ _ _).2.2.1]
    exact (preLoop_fields g b0.update o).2.2.1

theorem update_pipes_nospawn (g : GameState) (o : Oracle) (b0 : Bird)
    (hst : g.state = Mode.PLAYING) (hb : g.bird = some b0) (hp : g.paused = false)
    (hcd : g.countdown_active = false) (hpi : g.pipes = [])
    (hns : ¬g.pipe_spawn_timer + 1 ≥ g.pipe_spawn_interval) :
    (g.update o).pipes = [] := by
  rw [update_gameplay_eq g o b0 hst hb hp hcd]
  rw [(groundCheck_fields _).2.2.1, (powerupLoop_fields _ _ _).2.2.2.1]
  show (pipeLoop b0.update (preLoopState g b0.update o).slow_motion_active
    (preLoopState g b0.update o).shield_active (preLoopState g b0.update o).double_score_active
    (preLoopState g b0.update o).score (preLoopState g b0.update o).high_score
    (preLoopState g b0.update o).pipes).pipes = []
  rw [preLoop_pipes g b0.update o, if_neg hns, hpi]
  rfl

theorem jump_c7inv (g : GameState) (k : ℤ) (h : C7Inv k g) :
    C7Inv k (g.handle_event Event.keySpace) := by
  obtain ⟨h1, h2, h3, h4, h5, h6, h7, h8⟩ := h
  obtain ⟨b, hb⟩ := Option.isSome_iff_exists.mp h4
  simp only [C7Inv, GameState.handle_event, h1, h2, hb]
  simp [h3, h5, h6, h7, h8]

theorem tick_c7inv (g : GameState) (o : Oracle) (k : ℤ) (h : C7Inv k g)
    (hk : k + 1 < 90) (hplay : (g.update o).state = Mode.PLAYING) :
    C7Inv (k + 1) (g.update o) := by
  obtain ⟨h1, h2, h3, h4, h5, h6, h7, h8⟩ := h
  obtain ⟨b0, hb⟩ := Option.isSome_iff_exists.mp h4
  have hfields := update_c7_fields g o b0 h1 hb h2 h3
  refine ⟨hplay, update_paused_pres g o h2, hfields.1, ?_, hfields.2.2.trans h5, ?_, ?_,
    hfields.2.1.trans h8⟩
  · rw [update_gameplay_bird g o b0 h1 hb h2 h3]
    rfl
  · exact update_pipes_nospawn g o b0 h1 hb h2 h3 h6 (by rw [h7, h8]; omega)
  · rw [update_spawn_timer g o b0 h1 hb h2 h3, h7, h8, if_neg (by omega)]

theorem c7_run : ∀ (os : List Op) (g : GameState) (k : ℤ),
    C7Inv k g → os.all okOp = true → allPlaying g os = true →
    k + (countTicks os : ℤ) ≤ 89 →
    C7Inv (k + countTicks os) (runOps g os) := by
  intro os
  induction os with
  | nil =>
    intro g k h _ _ _
    simpa [countTicks] using h
  | cons op l ih =>
    intro g k h hok hap hb
    rw [List.all_cons, Bool.and_eq_true] at hok
    simp only [allPlaying, Bool.and_eq_true, decide_eq_true_eq] at hap
    cases op with
    | event e =>
      cases e
      case keySpace =>
        have hct : countTicks (Op.event Event.keySpace :: l) = countTicks l := rfl
        rw [hct] at hb ⊢
        exact ih (g.handle_event Event.keySpace) k (jump_c7inv g k h) hok.2 hap.2 hb
      all_goals exact Bool.noConfusion hok.1
    | tick o =>
      have hct : countTicks (Op.tick o :: l) = countTicks l + 1 := rfl
      rw [hct] at hb ⊢
      have hk : k + 1 < 90 := by push_cast at hb; omega
      have h2 := tick_c7inv g o k h hk hap.1
      have heq : k + ((countTicks l + 1 : ℕ) : ℤ) = k + 1 + (countTicks l : ℤ) := by
        push_cast
        ring
      rw [heq]
      exact ih (g.update o) (k + 1) h2 hok.2 hap.2 (by push_cast at hb ⊢; omega)

theorem c7_last (g : GameState) (o : Oracle) (h : C7Inv 89 g) :
    (g.update o).pipes.length = 1 ∧ (g.update o).pipe_spawn_timer = 0 := by
  obtain ⟨h1, h2, h3, h4, h5, h6, h7, h8⟩ := h
  obtain ⟨b0, hb⟩ := Option.isSome_iff_exists.mp h4
  have hpl : (preLoopState g b0.update o).pipes = [spawnedPipe g o] := by
    rw [preLoop_pipes g b0.update o, h6, h7, h8]
    norm_num
  constructor
  · rw [update_gameplay_eq g o b0 h1 hb h2 h3]
    rw [(groundCheck_fields _).2.2.1, (powerupLoop_fields _ _ _).2.2.2.1]
    show (pipeLoop b0.update (preLoopState g b0.update o).slow_motion_active
      (preLoopState g b0.update o).shield_active (preLoopState g b0.update o).double_score_active
      (preLoopState g b0.update o).score (preLoopState g b0.update o).high_score
      (preLoopState g b0.update o).pipes).pipes.length = 1
    rw [hpl, pipeLoop_cons]
    by_cases hf : fatalHit b0.update (preLoopState g b0.update o).shield_active
        (movePipe (preLoopState g b0.update o).slow_motion_active (spawnedPipe g o)) = true
    · rw [if_pos hf]
      rfl
    · rw [if_neg hf]
      have hoff := spawnTick_not_off g o b0.update
        (preLoopState g b0.update o).slow_motion_active h5
      simp [hoff, pipeLoop]
  · rw [update_spawn_timer g o b0 h1 hb h2 h3, h7, h8]
    norm_num

/-- **C7.**  In a gameplay tick (PLAYING, live bird, not paused, countdown
over) the pipe spawn counter goes up by 1, and exactly when it reaches the
spawn interval one pipe is appended at x = screenWidth and the counter
resets to 0; consequently, from any medium post-countdown state with an
empty pipe list and counter 0, after 89 further collision-free ticks
(interleaved with jumps) the 90th tick leaves exactly one pipe in the list
and the counter back at 0. -/
theorem c7_pipe_spawn :
    (∀ (g : GameState) (o : Oracle) (b0 : Bird),
      g.state = Mode.PLAYING → g.bird = some b0 → g.paused = false →
      g.countdown_active = false →
      (g.update o).pipe_spawn_timer =
        (if g.pipe_spawn_timer + 1 ≥ g.pipe_spawn_interval then 0
         else g.pipe_spawn_timer + 1) ∧
      (preLoopState g b0.update o).pipes =
        (if g.pipe_spawn_timer + 1 ≥ g.pipe_spawn_interval then
          g.pipes ++ [spawnedPipe g o]
         else g.pipes) ∧
      (spawnedPipe g o).x = Fx.ofInt SCREEN_WIDTH) ∧
    (∀ (g0 : GameState) (os : List Op) (o : Oracle),
      C7Inv 0 g0 → os.all okOp = true → allPlaying g0 os = true →
      countTicks os = 89 →
      ((runOps g0 os).update o).pipes.length = 1 ∧
      ((runOps g0 os).update o).pipe_spawn_timer = 0) := by
  constructor
  · intro g o b0 hst hb hp hcd
    exact ⟨update_spawn_timer g o b0 hst hb hp hcd, preLoop_pipes g b0.update o,
      spawnedPipe_x g o⟩
  · intro g0 os o h0 hok hap hct
    have hrun := c7_run os g0 0 h0 hok hap (by rw [hct]; norm_num)
    rw [hct] at hrun
    norm_num at hrun
    exact c7_last (runOps g0 os) o hrun

/-- The immediate post-countdown state of a fresh medium round. -/
def c7ws : GameState := { GameState.start_game initGame with countdown_active := false }

/-- The bird that state holds. -/
def c7Bird : Bird := Bird.init (Fx.ofInt 385) (Fx.ofInt 300) Difficulty.medium

/-- 89 collision-free gameplay ticks: jumps right before ticks 14, 43
and 72 keep the bird airborne. -/
def c7ops : List Op :=
  tickN 14 ++ jumpOp :: tickN 29 ++ jumpOp :: tickN 29 ++ jumpOp :: tickN 17

/-- Concrete instantiation of `c7_pipe_spawn`: the first tick of the fresh
round only raises the counter to 1, and after the 89 ticks of `c7ops` the
90th tick spawns the single pipe and resets the counter. -/
theorem c7_spawn_witness :
    ((c7ws.update traceOracle).pipe_spawn_timer =
      (if c7ws.pipe_spawn_timer + 1 ≥ c7ws.pipe_spawn_interval then 0
       else c7ws.pipe_spawn_timer + 1) ∧
     (preLoopState c7ws c7Bird.update traceOracle).pipes =
      (if c7ws.pipe_spawn_timer + 1 ≥ c7ws.pipe_spawn_interval then
        c7ws.pipes ++ [spawnedPipe c7ws traceOracle]
       else c7ws.pipes) ∧
     (spawnedPipe c7ws traceOracle).x = Fx.ofInt SCREEN_WIDTH) ∧
    (((runOps c7ws c7ops).update traceOracle).pipes.length = 1 ∧
     ((runOps c7ws c7ops).update traceOracle).pipe_spawn_timer = 0) :=
  ⟨c7_pipe_spawn.1 c7ws traceOracle c7Bird rfl (by decide) rfl rfl,
   c7_pipe_spawn.2 c7ws c7ops traceOracle
     ⟨rfl, rfl, rfl, by decide, rfl, rfl, rfl, by decide⟩
     (by decide) (by decide) (by decide)⟩

/-- The C1 trace state after 964 ticks: still PLAYING, the shield collected
during the last stretch down to its final timer tick, the bird far below
the screen under its protection. -/
def c1s964 : GameState :=
{ running := true
  state := Mode.PLAYING
  difficulty := Difficulty.medium
  paused := false
  bird := some { x := ⟨3850⟩, y := ⟨338240⟩, width := 30, height := 30, velocity := ⟨2312⟩, gravity := ⟨8⟩, jump_strength := ⟨-120⟩, rotation := ⟨-250⟩, max_rotation := 25, wing_animation := ⟨3620⟩ }
  pipes := [{ x := ⟨-250⟩, width := 60, gap := 200, speed := ⟨30⟩, top_height := 250, bottom_y := 450, scored := true, moving := false, move_speed := 1, move_direction := 1, move_timer := 0 },
    { x := ⟨2450⟩, width := 60, gap := 200, speed := ⟨30⟩, top_height := 250, bottom_y := 450, scored := true, moving := false, move_speed := 1, move_direction := 1, move_timer := 0 },
    { x := ⟨5150⟩, width := 60, gap := 200, speed := ⟨30⟩, top_height := 250, bottom_y := 450, scored := false, moving := false, move_speed := 1, move_direction := 1, move_timer := 0 },
    { x := ⟨7850⟩, width := 60, gap := 200, speed := ⟨30⟩, top_height := 250, bottom_y := 450, scored := false, moving := false, move_speed := 1, move_direction := 1, move_timer := 0 }]
  powerups := [{ x := ⟨4250⟩, y := ⟨3500⟩, width := 20, height := 20, speed := ⟨30⟩, type := PType.shield, collected := false, animation := ⟨250⟩ }]
  effects := [PEffect.collect ⟨4220⟩ ⟨3500⟩ Color.blue]
  score := 6
  high_score := 6
  pipe_spawn_timer := 4
  powerup_spawn_timer := 124
  pipe_spawn_interval := 90
  powerup_spawn_interval := 300
  shield_active := true
  shield_timer := 1
  slow_motion_active := false
  slow_motion_timer := 0
  double_score_active := false
  double_score_timer := 0
  menu_selection := 0
  settings_selection := 0
  difficulty_selection := 0
  volume_dragging := false
  countdown_timer := 0
  countdown_active := false
  countdown_text := "游戏开始" }

set_option maxRecDepth 100000 in
theorem c1_runC : runOps c1s660 c1cC = c1s964 := by decide

theorem pipeLoop_shield (b : Bird) (slow dbl : Bool) :
    ∀ (ps : List Pipe) (sc hs : ℤ),
      (pipeLoop b slow true dbl sc hs ps).gameOver = false ∧
      (pipeLoop b slow true dbl sc hs ps).fx = [] := by
  intro ps
  induction ps with
  | nil => intro sc hs; exact ⟨rfl, rfl⟩
  | cons p rest ih =>
    intro sc hs
    rw [pipeLoop_cons]
    rw [if_neg (by simp [fatalHit])]
    exact ⟨(ih _ _).1, (ih _ _).2⟩

theorem powerupLoop_shield_mono (b : Bird) (l : List PowerUp) (g : GameState)
    (h : g.shield_active = true) : (powerupLoop b g l).shield_active = true := by
  induction l generalizing g with
  | nil => exact h
  | cons p rest ih =>
    simp only [powerupLoop]
    split
    · apply ih
      cases hp : (movePowerUp g.slow_motion_active p).type <;>
        simp [GameState.collect_powerup, hp, h]
    · split
      · exact ih g h
      · exact ih g h

theorem postPipeState_state (g3 : GameState) (r : PipeLoopRes) :
    (postPipeState g3 r).state = (if r.gameOver then Mode.GAME_OVER else g3.state) := rfl

theorem postPipeState_effects (g3 : GameState) (r : PipeLoopRes) :
    (postPipeState g3 r).effects = g3.effects ++ r.fx := rfl

/-- **C1 (amended).**  A gameplay tick that starts with the shield active
and more than one tick left on its timer (so the shield survives this
tick's decrement of lines 1400-1403) never transitions the mode to
GameOver and emits no crash effect, whatever the bird overlaps. -/
theorem c1_shield_protects (g : GameState) (o : Oracle) (b0 : Bird)
    (hst : g.state = Mode.PLAYING) (hb : g.bird = some b0) (hp : g.paused = false)
    (hcd : g.countdown_active = false) (hsh : g.shield_active = true)
    (ht : 1 < g.shield_timer) :
    (g.update o).state = Mode.PLAYING ∧
    (g.update o).effects.countP PEffect.isCrash = g.effects.countP PEffect.isCrash := by
  rw [update_gameplay_eq g o b0 hst hb hp hcd]
  set X := preLoopState g b0.update o with hX
  have hshX : X.shield_active = true := by
    rw [hX, (preLoop_effects g b0.update o).1, hsh]
    simp only [if_true, decide_eq_true_eq]
    omega
  rw [hshX]
  set R := pipeLoop b0.update X.slow_motion_active true X.double_score_active
    X.score X.high_score X.pipes with hR
  have hgo := pipeLoop_shield b0.update X.slow_motion_active X.double_score_active
    X.pipes X.score X.high_score
  have hbird : (powerupLoop b0.update (postPipeState X R) (postPipeState X R).powerups).bird
      = some b0.update := by
    rw [powerupLoop_bird]
    exact (preLoop_fields g b0.update o).2.2.2.1
  have hshield2 : (powerupLoop b0.update (postPipeState X R)
      (postPipeState X R).powerups).shield_active = true :=
    powerupLoop_shield_mono b0.update (postPipeState X R).powerups (postPipeState X R) hshX
  rw [groundCheck_eq _ b0.update hbird, if_neg (by simp [hshield2])]
  constructor
  · rw [(powerupLoop_fields _ _ _).1, postPipeState_state, hgo.1]
    simp only [Bool.false_eq_true, if_false]
    exact ((preLoop_fields g b0.update o).1).trans hst
  · rw [powerupLoop_crashCount, postPipeState_effects, hgo.2, List.append_nil]
    rw [(preLoop_fields g b0.update o).2.2.2.2.1]

set_option maxRecDepth 1000000 in
/-- **C1 counterexample.**  A reachable state in which the shield is
active (with one tick left on its timer) and the bird overlaps the ground
band, yet the very next tick transitions to GAME_OVER and emits a crash
effect: the timer decrement of lines 1400-1403 runs before the collision
checks, so the shield lapses mid-tick. -/
theorem c1_counterexample :
    Reachable c1Pre ∧
    c1Pre = c1s964 ∧
    c1Pre.state = Mode.PLAYING ∧
    c1Pre.shield_active = true ∧
    c1Pre.shield_timer = 1 ∧
    (∃ b, c1Pre.bird = some b ∧ groundCond b.update = true) ∧
    (c1Pre.update traceOracle).state = Mode.GAME_OVER ∧
    (c1Pre.update traceOracle).effects.countP PEffect.isCrash =
      c1Pre.effects.countP PEffect.isCrash + 1 := by
  have hpre : c1Pre = c1s964 := c1_runC
  have hreach : Reachable c1Pre := by
    have h1 : runOps initGame (c1cA ++ (c1cB ++ c1cC)) = c1Pre := by
      rw [runOps_append, c1_runA, runOps_append, c1_runB]
      rfl
    rw [← h1]
    exact reachable_runOps Relation.ReflTransGen.refl _ (by decide)
  refine ⟨hreach, hpre, ?_, ?_, ?_, ?_, ?_, ?_⟩
  · rw [hpre]
    rfl
  · rw [hpre]
    rfl
  · rw [hpre]
    rfl
  · rw [hpre]
    exact ⟨_, rfl, by decide⟩
  · rw [hpre]
    decide
  · rw [hpre]
    decide

/-- A state like `c1s964` but with plenty of shield time left. -/
def c1wState : GameState := { c1s964 with shield_timer := 300 }

/-- Its bird. -/
def c1wBird : Bird :=
  { x := ⟨3850⟩, y := ⟨338240⟩, width := 30, height := 30, velocity := ⟨2312⟩,
    gravity := ⟨8⟩, jump_strength := ⟨-120⟩, rotation := ⟨-250⟩, max_rotation := 25,
    wing_animation := ⟨3620⟩ }

/-- Concrete instantiation of `c1_shield_protects`: the same deep-fallen
bird with 300 shield ticks left survives the tick with no crash effect. -/
theorem c1_shield_witness :
    c1wState.shield_active = true ∧ 1 < c1wState.shield_timer ∧
    (c1wState.update traceOracle).state = Mode.PLAYING ∧
    (c1wState.update traceOracle).effects.countP PEffect.isCrash =
      c1wState.effects.countP PEffect.isCrash :=
  ⟨rfl, by decide,
   (c1_shield_protects c1wState traceOracle c1wBird rfl rfl rfl rfl rfl (by decide)).1,
   (c1_shield_protects c1wState traceOracle c1wBird rfl rfl rfl rfl rfl (by decide)).2⟩

end FlappyBird
